import Mathlib

/-!
Verification development for the swarmDemos ant-colony simulation core
(src/app/ant-simulation/ant-simulation.ts).

The pheromone-grid component is embedded generically over a linear ordered
field with a floor function, so that the same definitions serve both the
exact-rational instantiations used for concrete evaluation and the real
instantiation used by the full simulation state.  The per-agent update
algorithm, the food-source lifecycle and the fixed-step integrator are
embedded as pure state-passing functions; every call to the host random
number generator is modelled by reading the next element of an explicit
stream `rng : Nat -> Real` at a threaded counter.
-/

namespace AntSim

/-- 2-D vector, mirroring the `Vector2` interface of the source. -/
structure Vector2 (α : Type) where
  x : α
  y : α
deriving DecidableEq, Repr

/-- Dense scent grid, mirroring the `PheromoneGrid` interface: row-major
`values`, a cell edge length `cellSize`, and the grid extents. -/
structure PheromoneGrid (α : Type) where
  columns : ℤ
  rows : ℤ
  cellSize : α
  values : List α
deriving DecidableEq, Repr

section GridOps

variable {α : Type} [LinearOrderedField α] [FloorRing α]

/-- `sampleGridCell` from the source: integer-divide each coordinate by the
cell size; out-of-bounds cells yield the sentinel index `-1` with weight 0,
in-bounds cells yield the row-major index with weight 1. -/
def sampleGridCell (grid : PheromoneGrid α) (position : Vector2 α) : ℤ × α :=
  let col : ℤ := ⌊position.x / grid.cellSize⌋
  let row : ℤ := ⌊position.y / grid.cellSize⌋
  if col < 0 ∨ row < 0 ∨ grid.columns ≤ col ∨ grid.rows ≤ row then
    (-1, 0)
  else
    (row * grid.columns + col, 1)

/-- `sampleGridValue` from the source: the cell value, or 0 when the point
falls outside the grid. -/
def sampleGridValue (grid : PheromoneGrid α) (position : Vector2 α) : α :=
  let cell := sampleGridCell grid position
  if cell.1 < 0 then 0 else grid.values.getD cell.1.toNat 0

/-- `depositPheromone` from the source: no-op outside the grid, otherwise add
`amount * weight` to the cell, clamped to 1. -/
def depositPheromone (grid : PheromoneGrid α) (position : Vector2 α) (amount : α) :
    PheromoneGrid α :=
  let cell := sampleGridCell grid position
  if cell.1 < 0 then grid
  else
    { grid with
      values := grid.values.set cell.1.toNat
        (min 1 (grid.values.getD cell.1.toNat 0 + amount * cell.2)) }

/-- `markNestSignal` from the source: identical cell arithmetic to
`depositPheromone`, applied to the nest-signal grid. -/
def markNestSignal (grid : PheromoneGrid α) (position : Vector2 α) (amount : α) :
    PheromoneGrid α :=
  let cell := sampleGridCell grid position
  if cell.1 < 0 then grid
  else
    { grid with
      values := grid.values.set cell.1.toNat
        (min 1 (grid.values.getD cell.1.toNat 0 + amount * cell.2)) }

/-- The per-cell evaporation map of `evaporatePheromones`: multiply by
`max 0 (1 - rate * delta)` and snap results of at most 0.001 to exactly 0. -/
def evaporateCell (factor v : α) : α :=
  let nextValue := v * factor
  if nextValue > 0.001 then nextValue else 0

/-- `evaporatePheromones` from the source, applied cell-wise. -/
def evaporatePheromones (grid : PheromoneGrid α) (evaporationRate delta : α) :
    PheromoneGrid α :=
  let factor := max 0 (1 - evaporationRate * delta)
  { grid with values := grid.values.map (evaporateCell factor) }

/-- One mutation of a pheromone grid, as performed by the simulation:
a trail deposit, a nest-signal mark, or an evaporation pass. -/
inductive GridOp (α : Type) where
  | deposit (position : Vector2 α) (amount : α)
  | mark (position : Vector2 α) (amount : α)
  | evaporate (rate delta : α)

/-- Validity of an operation as in the claim: deposits and marks carry a
non-negative amount, evaporation has non-negative rate and time step. -/
def ValidGridOp : GridOp α → Prop
  | .deposit _ amount => 0 ≤ amount
  | .mark _ amount => 0 ≤ amount
  | .evaporate rate delta => 0 ≤ rate ∧ 0 ≤ delta

/-- Apply one grid operation. -/
def applyGridOp (grid : PheromoneGrid α) : GridOp α → PheromoneGrid α
  | .deposit position amount => depositPheromone grid position amount
  | .mark position amount => markNestSignal grid position amount
  | .evaporate rate delta => evaporatePheromones grid rate delta

/-- Apply a sequence of grid operations, left to right. -/
def applyGridOps (grid : PheromoneGrid α) (ops : List (GridOp α)) : PheromoneGrid α :=
  ops.foldl applyGridOp grid

end GridOps

/-! ### Fixed-step integrator (`tick` / the `while` loop over the accumulator)

The integrator arithmetic uses only field operations, `min` and comparisons,
so it is embedded over the rationals for exact evaluation.  `SIMULATION_STEP`
is 0.05 s and `MAX_FRAME_DELTA` is 0.5 s as in the source constants. -/

/-- `SIMULATION_STEP` (seconds). -/
def SIMULATION_STEP : ℚ := 0.05

/-- `MAX_FRAME_DELTA` (seconds). -/
def MAX_FRAME_DELTA : ℚ := 0.5

/-- The `while (accumulator >= SIMULATION_STEP)` loop of `tick`: returns the
list of `delta` arguments passed to `updateSimulation` (one entry per whole
step, each equal to `SIMULATION_STEP`) together with the leftover
accumulator. -/
def tickLoop (accumulator : ℚ) : List ℚ × ℚ :=
  if SIMULATION_STEP ≤ accumulator then
    let rest := tickLoop (accumulator - SIMULATION_STEP)
    (SIMULATION_STEP :: rest.1, rest.2)
  else
    ([], accumulator)
termination_by ⌊accumulator / SIMULATION_STEP⌋.toNat
decreasing_by
  have hstep : (0:ℚ) < SIMULATION_STEP := by norm_num [SIMULATION_STEP]
  have h1 : (1:ℚ) ≤ accumulator / SIMULATION_STEP :=
    (le_div_iff₀ hstep).2 (by simpa using ‹SIMULATION_STEP ≤ accumulator›)
  have hfl : ⌊(accumulator - SIMULATION_STEP) / SIMULATION_STEP⌋
      = ⌊accumulator / SIMULATION_STEP⌋ - 1 := by
    rw [sub_div, div_self (ne_of_gt hstep)]
    exact Int.floor_sub_one _
  have hpos : (1:ℤ) ≤ ⌊accumulator / SIMULATION_STEP⌋ := Int.le_floor.2 (by exact_mod_cast h1)
  rw [hfl]
  omega

/-- The measurable part of `tick`: scale the raw frame delta by the time
scale, clamp it to `MAX_FRAME_DELTA`, add it to the accumulator, then run
whole fixed steps.  Returns the per-step deltas and the next accumulator. -/
def tick (accumulator rawDelta timeScale : ℚ) : List ℚ × ℚ :=
  let scaledDelta := min (rawDelta * timeScale) MAX_FRAME_DELTA
  tickLoop (accumulator + scaledDelta)

/-! ### Food-source capacity lifecycle

`handleFoodDepletion` filters the source list, depleting passively inside the
filter predicate; an agent pickup replaces the capacity by
`max 0 (capacity - 1)`.  The lifecycle of one source is the composition of
these operations. -/

/-- The passive depletion applied to one capacity inside
`handleFoodDepletion` (`multiplier` is already clamped by `max 0` in the
caller, reproduced here): deplete only while the feature is enabled and the
capacity is positive. -/
def depleteCap (enabled : Bool) (depletionRate multiplier delta c : ℚ) : ℚ :=
  if enabled ∧ 0 < c then max 0 (c - depletionRate * max 0 multiplier * delta) else c

/-- One event in the life of a single food source: an agent pickup
(`updateAnt` line `source.capacity = Math.max(0, source.capacity - 1)`), or
one `handleFoodDepletion` pass (passive depletion followed by the
`capacity > 0.1` retention filter). -/
inductive FoodOp where
  | pickup
  | depletionPass (enabled : Bool) (depletionRate multiplier delta : ℚ)

/-- Run a source's capacity through a sequence of events; `none` means the
source has been removed from the active set by a depletion pass. -/
def foodRun : List FoodOp → Option ℚ → Option ℚ
  | _, none => none
  | [], some c => some c
  | .pickup :: rest, some c => foodRun rest (some (max 0 (c - 1)))
  | .depletionPass enabled rate mult delta :: rest, some c =>
      let next := depleteCap enabled rate mult delta c
      foodRun rest (if 0.1 < next then some next else none)

/-- A depletion pass carries non-negative rate and time step (the rate comes
from the food form whose validator enforces at least 0.01, the time step is
the fixed 0.05 s simulation step). -/
def ValidFoodOp : FoodOp → Prop
  | .pickup => True
  | .depletionPass _ rate _ delta => 0 ≤ rate ∧ 0 ≤ delta

/-! ### The simulation proper, over the reals -/

section RealSim

open Real Classical

noncomputable section

/-- Points and grids of the live simulation state. -/
abbrev Vec2 := Vector2 ℝ

/-- Grid instantiation used by the live simulation state. -/
abbrev GridR := PheromoneGrid ℝ

/-- `WORLD_DIMENSIONS.width`. -/
def WORLD_WIDTH : ℝ := 120

/-- `WORLD_DIMENSIONS.height`. -/
def WORLD_HEIGHT : ℝ := 80

/-- `NEST_RADIUS`. -/
def NEST_RADIUS : ℝ := 4

/-- `PHEROMONE_CELL_SIZE`. -/
def PHEROMONE_CELL_SIZE : ℝ := 1

/-- `FOOD_RETURN_TIMEOUT` (seconds of carried food before a forced return). -/
def FOOD_RETURN_TIMEOUT : ℝ := 35

/-- `NEST_SIGNAL_DURATION` (seconds). -/
def NEST_SIGNAL_DURATION : ℝ := 6

/-- `NEST_SIGNAL_DEPOSIT_INTERVAL` (seconds). -/
def NEST_SIGNAL_DEPOSIT_INTERVAL : ℝ := 0.15

/-- `NEST_SIGNAL_STRENGTH`. -/
def NEST_SIGNAL_STRENGTH : ℝ := 0.45

/-- Per-agent state, mirroring the `Ant` interface field for field. -/
structure Ant where
  id : ℕ
  position : Vec2
  direction : ℝ
  carryingFood : Bool
  speed : ℝ
  pheromoneCooldown : ℝ
  depositAccumulator : ℝ
  personalIntensity : ℝ
  lastDirection : ℝ
  stalledTime : ℝ
  carryingTime : ℝ
  forceReturn : Bool
  nestSignalTimer : ℝ
  nestSignalAccumulator : ℝ
  pathIntegration : Vec2

/-- Food source state, mirroring the `FoodSource` interface (the string id is
abstracted to a natural number; it never enters the update arithmetic). -/
structure FoodSource where
  id : ℕ
  position : Vec2
  radius : ℝ
  capacity : ℝ
  maxCapacity : ℝ
  depletionRate : ℝ

/-- The nest. -/
structure Nest where
  position : Vec2
  radius : ℝ

/-- Running statistics. -/
structure Stats where
  deliveredFood : ℕ
  elapsedSeconds : ℝ

/-- Aggregate world state, mirroring `SimulationState`. -/
structure SimulationState where
  nest : Nest
  ants : List Ant
  foodSources : List FoodSource
  homePheromones : GridR
  foodPheromones : GridR
  nestSignals : GridR
  stats : Stats
  foodRespawnTimer : ℝ

/-- Settings snapshot, mirroring `SimulationSettings`. -/
structure SimulationSettings where
  antCount : ℕ
  antSpeed : ℝ
  pheromoneInfluence : ℝ
  randomness : ℝ
  evaporationRate : ℝ
  depositionRate : ℝ
  timeScale : ℝ
  allowFoodDepletion : Bool
  depletionMultiplier : ℝ

/-- Euclidean distance, as computed by `distance` in the source. -/
def distance (a b : Vec2) : ℝ :=
  Real.sqrt ((a.x - b.x) * (a.x - b.x) + (a.y - b.y) * (a.y - b.y))

/-- `Math.hypot` on two arguments. -/
def hypot (x y : ℝ) : ℝ := Real.sqrt (x * x + y * y)

/-- `Math.atan2 y x`, modelled as the argument of the complex number
`x + y i`; no algebraic property of this function is used by any proof, the
update algorithm only ever feeds its output through angle interpolation and
wrapping. -/
def atan2 (y x : ℝ) : ℝ := Complex.arg (Complex.mk x y)

/-- The JavaScript remainder operator `%`: `x - y * trunc (x / y)` (the
result carries the sign of the dividend). -/
def jsRem (x y : ℝ) : ℝ :=
  if 0 ≤ x / y then x - y * ⌊x / y⌋ else x - y * ⌈x / y⌉

/-- `wrapAngle` from the source: `((angle % twoPi) + twoPi) % twoPi`. -/
def wrapAngle (angle : ℝ) : ℝ :=
  let twoPi := π * 2
  jsRem (jsRem angle twoPi + twoPi) twoPi

/-- The first `while` loop of `normalizeAngle`: subtract `2π` while the angle
exceeds `π`. -/
def normDown (angle : ℝ) : ℝ :=
  if π < angle then normDown (angle - 2 * π) else angle
termination_by ⌈(angle - π) / (2 * π)⌉.toNat
decreasing_by
  have hq : (0:ℝ) < (angle - π) / (2 * π) :=
    div_pos (by linarith [‹π < angle›]) (by positivity)
  have hfl : ⌈(angle - 2 * π - π) / (2 * π)⌉ = ⌈(angle - π) / (2 * π)⌉ - 1 := by
    have : (angle - 2 * π - π) / (2 * π) = (angle - π) / (2 * π) - 1 := by
      field_simp
      ring
    rw [this, Int.ceil_sub_one]
  have hpos : (1:ℤ) ≤ ⌈(angle - π) / (2 * π)⌉ := Int.ceil_pos.2 hq
  rw [hfl]
  omega

/-- The second `while` loop of `normalizeAngle`: add `2π` while the angle is
below `-π`. -/
def normUp (angle : ℝ) : ℝ :=
  if angle < -π then normUp (angle + 2 * π) else angle
termination_by ⌈(-π - angle) / (2 * π)⌉.toNat
decreasing_by
  have hq : (0:ℝ) < (-π - angle) / (2 * π) :=
    div_pos (by linarith [‹angle < -π›]) (by positivity)
  have hfl : ⌈(-π - (angle + 2 * π)) / (2 * π)⌉ = ⌈(-π - angle) / (2 * π)⌉ - 1 := by
    have : (-π - (angle + 2 * π)) / (2 * π) = (-π - angle) / (2 * π) - 1 := by
      field_simp
      ring
    rw [this, Int.ceil_sub_one]
  have hpos : (1:ℤ) ≤ ⌈(-π - angle) / (2 * π)⌉ := Int.ceil_pos.2 hq
  rw [hfl]
  omega

/-- `normalizeAngle` from the source: both wrap-around loops in order. -/
def normalizeAngle (angle : ℝ) : ℝ := normUp (normDown angle)

/-- `interpolateAngle` from the source: move `src` toward `tgt` by the
normalized difference scaled by the bias clamped into [0, 1]. -/
def interpolateAngle (src tgt bias : ℝ) : ℝ :=
  src + normalizeAngle (tgt - src) * min 1 (max 0 bias)

/-- `clampToWorld`. -/
def clampToWorld (position : Vec2) : Vec2 :=
  ⟨max 0 (min WORLD_WIDTH position.x), max 0 (min WORLD_HEIGHT position.y)⟩

/-- `getWorldCenter`. -/
def getWorldCenter : Vec2 := ⟨WORLD_WIDTH / 2, WORLD_HEIGHT / 2⟩

/-- `isAtWorldEdge` (default margin 0.6). -/
def isAtWorldEdge (position : Vec2) (margin : ℝ := 0.6) : Prop :=
  position.x ≤ margin ∨ position.y ≤ margin ∨
    WORLD_WIDTH - margin ≤ position.x ∨ WORLD_HEIGHT - margin ≤ position.y

/-- `isInsideWorld` (default margin 0). -/
def isInsideWorld (position : Vec2) (margin : ℝ := 0) : Prop :=
  margin ≤ position.x ∧ margin ≤ position.y ∧
    position.x ≤ WORLD_WIDTH - margin ∧ position.y ≤ WORLD_HEIGHT - margin

/-- `projectMove`. -/
def projectMove (origin : Vec2) (direction dist : ℝ) : Vec2 :=
  ⟨origin.x + Real.cos direction * dist, origin.y + Real.sin direction * dist⟩

/-- The probe options object accepted by `samplePheromoneDirection`. -/
structure SampleOptions where
  probeDistance : Option ℝ := none
  offsets : Option (List ℝ) := none
  secondaryGrid : Option GridR := none
  secondaryWeight : Option ℝ := none
  influenceMultiplier : Option ℝ := none

/-- The `samples.sort(...)` followed by `samples[0]` in the source: a stable
descending sort by intensity makes the chosen element the earliest one of
maximal intensity, which a left fold keeping the first strict maximum
computes directly. -/
def strongestSample : List (ℝ × ℝ) → Option (ℝ × ℝ)
  | [] => none
  | s :: rest => some (rest.foldl (fun best t => if best.2 < t.2 then t else best) s)

/-- `samplePheromoneDirection` from the source: probe a fan of headings at a
lookahead distance, optionally add a weighted secondary-grid sample, keep
probes of positive intensity, and blend the current heading toward the
strongest probe with bias `alpha / (alpha + 1)`. -/
def samplePheromoneDirection (ant : Ant) (grid : GridR)
    (settings : SimulationSettings) (options : Option SampleOptions) : Option ℝ :=
  let spread := π / 3
  let offsets := (options.bind (fun o => o.offsets)).getD [-spread, 0, spread]
  let probeDistance := (options.bind (fun o => o.probeDistance)).getD 4
  let secondaryGrid := options.bind (fun o => o.secondaryGrid)
  let secondaryWeight := (options.bind (fun o => o.secondaryWeight)).getD 0
  let samples := offsets.filterMap (fun offset =>
    let angle := ant.direction + offset
    let samplePoint : Vec2 :=
      ⟨ant.position.x + Real.cos angle * probeDistance,
       ant.position.y + Real.sin angle * probeDistance⟩
    let base := sampleGridValue grid samplePoint
    let intensity :=
      match secondaryGrid with
      | some sg =>
          if 0 < secondaryWeight then
            base + sampleGridValue sg samplePoint * secondaryWeight
          else base
      | none => base
    if 0 < intensity then some (angle, intensity) else none)
  match strongestSample samples with
  | none => none
  | some s =>
      let alpha := max 0 settings.pheromoneInfluence *
        ((options.bind (fun o => o.influenceMultiplier)).getD 1)
      let bias := alpha / (alpha + 1)
      some (interpolateAngle ant.direction s.1 bias)

/-- The carrying-timeout block at the top of `updateAnt` (forced-return
arming and carrying-time bookkeeping). -/
def carryStage (ant : Ant) (delta : ℝ) : Ant :=
  if ant.carryingFood then
    let t := ant.carryingTime + delta
    if ¬ant.forceReturn ∧ FOOD_RETURN_TIMEOUT ≤ t then
      { ant with forceReturn := true, carryingTime := 0 }
    else
      { ant with carryingTime := t }
  else
    { ant with carryingTime := 0, forceReturn := false }

/-- The sense/decide block of `updateAnt` (everything that feeds the new
heading, ending at `ant.direction = this.wrapAngle(desiredDirection)`).
Returns the new heading and the advanced random counter. -/
def senseDecideStage (rng : ℕ → ℝ) (k : ℕ) (ant : Ant)
    (home food nestSig : GridR) (settings : SimulationSettings) : ℝ × ℕ :=
  let targetGrid := if ant.carryingFood then home else food
  let homeVector : Vec2 := ⟨-ant.pathIntegration.x, -ant.pathIntegration.y⟩
  let homeVectorLength := hypot homeVector.x homeVector.y
  let homeAngle : Option ℝ :=
    if 0.001 < homeVectorLength then some (atan2 homeVector.y homeVector.x) else none
  let pheromoneDirection := samplePheromoneDirection ant targetGrid settings
    (if ant.carryingFood then
      some
        { probeDistance := some (if ant.forceReturn then 6 else 5)
          offsets :=
            if ant.forceReturn then
              some [-(π / 2.8), -(π / 5), 0, π / 5, π / 2.8]
            else none
          secondaryGrid := some nestSig
          secondaryWeight := some (if ant.forceReturn then 0.9 else 0.55)
          influenceMultiplier := some (if ant.forceReturn then 1.65 else 1.25) }
    else none)
  let randomnessFactor : ℝ := if ant.forceReturn then 0.35 else 1
  let randomJitter := (rng k - 0.5) * settings.randomness * randomnessFactor
  let d0 := ant.direction
  let d1 :=
    if ant.carryingFood then
      match pheromoneDirection with
      | some pd =>
          let influence :=
            if ant.forceReturn then min 1 (settings.pheromoneInfluence * 1.35)
            else settings.pheromoneInfluence
          interpolateAngle d0 pd influence
      | none =>
          let localFoodSignal := sampleGridValue food ant.position
          let base :=
            if localFoodSignal ≤ 0.02 then
              let fallbackBias : ℝ := if ant.forceReturn then 0.55 else 0.2
              interpolateAngle d0 (homeAngle.getD d0) fallbackBias
            else d0
          base + randomJitter * (if ant.forceReturn then 0.4 else 1)
    else
      match pheromoneDirection with
      | some pd => interpolateAngle d0 pd settings.pheromoneInfluence
      | none => d0 + randomJitter
  let d2 := d1 + randomJitter * (if ant.forceReturn then 0.1 else 0.25)
  let d3 :=
    if ant.carryingFood then
      match homeAngle with
      | some ha => interpolateAngle d2 ha (if ant.forceReturn then 0.55 else 0.2)
      | none => d2
    else d2
  (wrapAngle d3, k + 1)

/-- The retry loop of `advanceAntWithinWorld`, on remaining attempts:
re-bias the heading toward the preferred interior anchor and re-project until
the projection is inside the world (margin 0.05) or attempts run out. -/
def advanceLoop (rng : ℕ → ℝ) (origin preferred : Vec2) (moveDistance : ℝ) :
    ℕ → ℕ → ℝ → Vec2 → ℝ × Vec2 × ℕ
  | k, 0, direction, next => (direction, next, k)
  | k, fuel + 1, direction, next =>
      if isInsideWorld next 0.05 then (direction, next, k)
      else
        let inwardAngle := atan2 (preferred.y - origin.y) (preferred.x - origin.x)
        let bias := 0.55 + rng k * 0.35
        let jitter := (rng (k + 1) - 0.5) * π * 0.25
        let direction2 := wrapAngle (interpolateAngle direction inwardAngle bias + jitter)
        advanceLoop rng origin preferred moveDistance (k + 2) fuel direction2
          (projectMove origin direction2 moveDistance)

/-- `advanceAntWithinWorld`: move along the heading, retrying up to 6 times
when the projection leaves the world, hard-clamping as a last resort; returns
the moved ant, the realized displacement and the random counter. -/
def advanceAntWithinWorld (rng : ℕ → ℝ) (k : ℕ) (ant : Ant) (moveDistance : ℝ)
    (nestPosition : Vec2) : Ant × ℝ × ℕ :=
  if moveDistance ≤ 0 then (ant, 0, k)
  else
    let origin := ant.position
    let preferred := if ant.carryingFood then nestPosition else getWorldCenter
    let start := projectMove origin ant.direction moveDistance
    let result := advanceLoop rng origin preferred moveDistance k 6 ant.direction start
    let next := result.2.1
    let final := if isInsideWorld next 0.05 then next else clampToWorld next
    ({ ant with direction := result.1, position := final },
      distance origin final, result.2.2)

/-- The movement block of `updateAnt`: advance within the world, accumulate
the realized displacement into the path-integration vector, and rescale that
vector when its magnitude exceeds 1.5 times the larger world dimension. -/
def moveStage (rng : ℕ → ℝ) (k : ℕ) (ant : Ant) (settings : SimulationSettings)
    (delta : ℝ) (nestPosition : Vec2) : Ant × ℝ × ℕ :=
  let previous := ant.position
  let moveDistance := settings.antSpeed * delta
  let step := advanceAntWithinWorld rng k ant moveDistance nestPosition
  let moved := step.2.1
  let a1 := step.1
  let pi1 : Vec2 :=
    ⟨a1.pathIntegration.x + (a1.position.x - previous.x),
     a1.pathIntegration.y + (a1.position.y - previous.y)⟩
  let maxPathLength := max WORLD_WIDTH WORLD_HEIGHT * 1.5
  let currentPathLength := hypot pi1.x pi1.y
  let pi2 : Vec2 :=
    if maxPathLength < currentPathLength then
      let scale := maxPathLength / currentPathLength
      ⟨pi1.x * scale, pi1.y * scale⟩
    else pi1
  ({ a1 with pathIntegration := pi2 }, moved, step.2.2)

/-- The stall block of `updateAnt`: accumulate stalled time on tiny realized
displacement and nudge edge-stuck ants back toward the nest. -/
def stallStage (rng : ℕ → ℝ) (k : ℕ) (ant : Ant) (moved delta : ℝ)
    (nestPosition : Vec2) : Ant × ℕ :=
  if moved < 0.025 then
    let stalled := ant.stalledTime + delta
    if 0.4 < stalled ∧ isAtWorldEdge ant.position then
      let escapeAngle :=
        atan2 (nestPosition.y - ant.position.y) (nestPosition.x - ant.position.x)
      let deflect := (rng k - 0.5) * π * 0.4
      ({ ant with
          stalledTime := stalled
          direction := wrapAngle (escapeAngle + deflect) }, k + 1)
    else ({ ant with stalledTime := stalled }, k)
  else ({ ant with stalledTime := 0 }, k)

/-- The trail-deposit block of `updateAnt` (the `depositGrid` reassignment
and the 0.1 s interval accumulator).  Returns the updated ant together with
the home-trail and food-trail grids. -/
def depositStage (ant : Ant) (home food : GridR) (settings : SimulationSettings)
    (delta : ℝ) : Ant × GridR × GridR :=
  let depositInterval : ℝ := 0.1
  if ant.stalledTime < 0.3 then
    let acc := ant.depositAccumulator + delta
    if depositInterval ≤ acc then
      let count : ℤ := ⌊acc / depositInterval⌋
      let acc2 := acc - depositInterval * count
      let amount := settings.depositionRate * count
      if ant.carryingFood then
        ({ ant with depositAccumulator := acc2 }, home,
          depositPheromone food ant.position amount)
      else
        ({ ant with depositAccumulator := acc2 },
          depositPheromone home ant.position amount, food)
    else ({ ant with depositAccumulator := acc }, home, food)
  else
    ({ ant with depositAccumulator := min ant.depositAccumulator depositInterval },
      home, food)

/-- The nest-signal block of `updateAnt` (0.15 s interval accumulator while
the 6 s timer runs). -/
def nestSignalStage (ant : Ant) (nestSig : GridR) (delta : ℝ) : Ant × GridR :=
  if 0 < ant.nestSignalTimer then
    let timer := max 0 (ant.nestSignalTimer - delta)
    if ant.stalledTime < 0.3 then
      let acc := ant.nestSignalAccumulator + delta
      if NEST_SIGNAL_DEPOSIT_INTERVAL ≤ acc then
        let count : ℤ := ⌊acc / NEST_SIGNAL_DEPOSIT_INTERVAL⌋
        let acc2 := acc - NEST_SIGNAL_DEPOSIT_INTERVAL * count
        ({ ant with nestSignalTimer := timer, nestSignalAccumulator := acc2 },
          markNestSignal nestSig ant.position (NEST_SIGNAL_STRENGTH * count))
      else
        ({ ant with nestSignalTimer := timer, nestSignalAccumulator := acc }, nestSig)
    else ({ ant with nestSignalTimer := timer }, nestSig)
  else ({ ant with nestSignalAccumulator := 0 }, nestSig)

/-- The `findFoodSource` scan, returning the position in the list of the
first source whose radius contains the point and whose capacity is positive. -/
def findFoodSourceIdx : List FoodSource → Vec2 → Option ℕ
  | [], _ => none
  | s :: rest, p =>
      if distance p s.position ≤ s.radius ∧ 0 < s.capacity then some 0
      else (findFoodSourceIdx rest p).map (· + 1)

/-- The pickup mutation `source.capacity = Math.max(0, source.capacity - 1)`
applied to the source at the given list position. -/
def decrementAt : List FoodSource → ℕ → List FoodSource
  | [], _ => []
  | s :: rest, 0 => { s with capacity := max 0 (s.capacity - 1) } :: rest
  | s :: rest, n + 1 => s :: decrementAt rest n

/-- The pickup / delivery block at the end of `updateAnt`.  Returns the
updated ant, the food sources, the delivered-food counter and the random
counter. -/
def transitionStage (rng : ℕ → ℝ) (k : ℕ) (ant : Ant)
    (foodSources : List FoodSource) (foodGrid : GridR)
    (settings : SimulationSettings) (nest : Nest) (nestPosition : Vec2)
    (delivered : ℕ) : Ant × List FoodSource × ℕ × ℕ :=
  if ant.carryingFood then
    if distance ant.position nestPosition ≤ nest.radius then
      let a1 := { ant with
        carryingFood := false
        carryingTime := 0
        forceReturn := false
        nestSignalTimer := NEST_SIGNAL_DURATION
        nestSignalAccumulator := 0 }
      let outbound := samplePheromoneDirection a1 foodGrid settings none
      let afterDir :=
        match outbound with
        | some d => (d, k)
        | none =>
            let nestAngle :=
              atan2 (nestPosition.y - a1.position.y) (nestPosition.x - a1.position.x)
            (wrapAngle (nestAngle + π + (rng k - 0.5) * π * 0.3), k + 1)
      let dir2 := afterDir.1
      let pos2 := clampToWorld
        ⟨nestPosition.x + Real.cos dir2 * (nest.radius + 0.5),
         nestPosition.y + Real.sin dir2 * (nest.radius + 0.5)⟩
      ({ a1 with
          direction := dir2
          position := pos2
          pathIntegration := ⟨pos2.x - nestPosition.x, pos2.y - nestPosition.y⟩ },
        foodSources, delivered + 1, afterDir.2)
    else (ant, foodSources, delivered, k)
  else
    let a1 :=
      if distance ant.position nestPosition ≤ nest.radius then
        { ant with pathIntegration :=
            ⟨ant.position.x - nestPosition.x, ant.position.y - nestPosition.y⟩ }
      else ant
    match findFoodSourceIdx foodSources a1.position with
    | some i =>
        ({ a1 with carryingFood := true, carryingTime := 0 },
          decrementAt foodSources i, delivered, k)
    | none => (a1, foodSources, delivered, k)

/-- The result of one `updateAnt` call: the mutated ant together with every
piece of shared state the call touches. -/
structure UpdateResult where
  ant : Ant
  foodSources : List FoodSource
  homePheromones : GridR
  foodPheromones : GridR
  nestSignals : GridR
  deliveredFood : ℕ
  k : ℕ

/-- `updateAnt` from the source, assembled from its blocks in source order:
carry bookkeeping, sense/decide, move, stall handling, trail deposit
(into the food-trail grid while carrying, the home-trail grid while
foraging), nest-signal emission, then the delivery / pickup transitions. -/
def updateAnt (rng : ℕ → ℝ) (k : ℕ) (ant : Ant) (state : SimulationState)
    (settings : SimulationSettings) (delta : ℝ) (nestPosition : Vec2) :
    UpdateResult :=
  let a1 := carryStage ant delta
  let sensed := senseDecideStage rng k a1 state.homePheromones state.foodPheromones
    state.nestSignals settings
  let a2 := { a1 with direction := sensed.1 }
  let movedStep := moveStage rng sensed.2 a2 settings delta nestPosition
  let a3 := movedStep.1
  let stalled := stallStage rng movedStep.2.2 a3 movedStep.2.1 delta nestPosition
  let a4 := stalled.1
  let deposited := depositStage a4 state.homePheromones state.foodPheromones
    settings delta
  let a5 := deposited.1
  let signalled := nestSignalStage a5 state.nestSignals delta
  let a6 := signalled.1
  let transitioned := transitionStage rng stalled.2 a6 state.foodSources
    deposited.2.2 settings state.nest nestPosition state.stats.deliveredFood
  { ant := transitioned.1
    foodSources := transitioned.2.1
    homePheromones := deposited.2.1
    foodPheromones := deposited.2.2
    nestSignals := signalled.2
    deliveredFood := transitioned.2.2.1
    k := transitioned.2.2.2 }

/-- `createAnt` from the source: spawn at the given position with a random
base heading spread by the jitter bounds, a full nest-signal timer and a
zero path-integration vector. -/
def createAnt (rng : ℕ → ℝ) (k : ℕ) (id : ℕ) (position : Vec2)
    (spread jitter : ℝ) : Ant :=
  let baseAngle := rng k * π * 2
  let direction := wrapAngle (baseAngle + (rng (k + 1) - 0.5) * spread)
  { id := id
    position := position
    direction := direction
    carryingFood := false
    speed := 0
    pheromoneCooldown := 0
    depositAccumulator := 0
    personalIntensity := 0
    lastDirection := direction + (rng (k + 2) - 0.5) * jitter
    stalledTime := 0
    carryingTime := 0
    forceReturn := false
    nestSignalTimer := NEST_SIGNAL_DURATION
    nestSignalAccumulator := 0
    pathIntegration := ⟨0, 0⟩ }

/-- The growth loop of `updateAntPopulation`: the i-th pushed ant reads the
list length after i pushes, so its id is `currentCount + i + i`. -/
def spawnLoop (rng : ℕ → ℝ) (position : Vec2) (spread jitter : ℝ)
    (currentCount : ℕ) : ℕ → ℕ → ℕ → List Ant
  | _, _, 0 => []
  | k, i, remaining + 1 =>
      createAnt rng k (currentCount + i + i) position spread jitter ::
        spawnLoop rng position spread jitter currentCount (k + 3) (i + 1) remaining

/-- `updateAntPopulation`: append nest-spawned ants up to the target count,
or truncate the tail beyond it. -/
def updateAntPopulation (rng : ℕ → ℝ) (k : ℕ) (ants : List Ant)
    (nestPosition : Vec2) (targetCount : ℕ) (angleSpread directionJitter : ℝ) :
    List Ant :=
  let currentCount := ants.length
  if currentCount = targetCount then ants
  else if currentCount < targetCount then
    ants ++ spawnLoop rng nestPosition angleSpread directionJitter currentCount k 0
      (targetCount - currentCount)
  else ants.take targetCount

/-- The per-source passive-depletion mutation inside `handleFoodDepletion`
(the multiplier argument is the already-clamped `max 0 depletionMultiplier`). -/
def depleteSource (passiveEnabled : Bool) (multiplier delta : ℝ)
    (s : FoodSource) : FoodSource :=
  if passiveEnabled ∧ 0 < s.capacity then
    { s with capacity := max 0 (s.capacity - s.depletionRate * multiplier * delta) }
  else s

/-- `handleFoodDepletion`: passively deplete each source (when enabled) and
retain exactly the sources whose capacity stays above 0.1. -/
def handleFoodDepletion (allowFoodDepletion : Bool) (depletionMultiplier delta : ℝ)
    (sources : List FoodSource) : List FoodSource :=
  let multiplier := max 0 depletionMultiplier
  (sources.map (depleteSource allowFoodDepletion multiplier delta)).filter
    (fun s => decide (0.1 < s.capacity))

end

end RealSim

/-! ### Concrete objects used to evaluate the definitions -/

/-- A 2 by 2 rational grid with cell size 1. -/
def exampleGridQ : PheromoneGrid ℚ := ⟨2, 2, 1, [1/2, 0, 1, 1/4]⟩

/-- A mixed sequence of valid grid operations, including an out-of-bounds
deposit. -/
def exampleOpsQ : List (GridOp ℚ) :=
  [GridOp.deposit ⟨1/2, 1/2⟩ (3/10), GridOp.evaporate (1/10) 1,
   GridOp.mark ⟨3/2, 1/2⟩ 2, GridOp.deposit ⟨-1, 0⟩ 1]

section RealExamples

open Real

noncomputable section

/-- The random stream that always yields 0; the traces below never read a
draw that affects the traced quantities. -/
def rngZero : ℕ → ℝ := fun _ => 0

/-- A 120 by 80 real grid, cell size 1, every cell at full intensity. -/
def onesGridR : GridR := ⟨120, 80, 1, List.replicate 9600 1⟩

/-- A 120 by 80 real grid, cell size 1, every cell at zero. -/
def zerosGridR : GridR := ⟨120, 80, 1, List.replicate 9600 0⟩

/-- The nest of a standard run: world center, radius `NEST_RADIUS`. -/
def exampleNest : Nest := ⟨⟨60, 40⟩, NEST_RADIUS⟩

/-- Settings with full pheromone influence, no randomness, and zero speed
(a motionless step isolates the delivery re-orientation). -/
def exampleSettings : SimulationSettings :=
  { antCount := 1
    antSpeed := 0
    pheromoneInfluence := 1
    randomness := 0
    evaporationRate := 0.15
    depositionRate := 0.55
    timeScale := 3
    allowFoodDepletion := false
    depletionMultiplier := 1 }

/-- A carrying ant two units west of the nest, heading 0, with empty path
integration; it delivers within the next fixed step. -/
def deliveryAnt : Ant :=
  { id := 0
    position := ⟨58, 40⟩
    direction := 0
    carryingFood := true
    speed := 0
    pheromoneCooldown := 0
    depositAccumulator := 0
    personalIntensity := 0
    lastDirection := 0
    stalledTime := 0
    carryingTime := 0
    forceReturn := false
    nestSignalTimer := 0
    nestSignalAccumulator := 0
    pathIntegration := ⟨0, 0⟩ }

/-- The state around `deliveryAnt`: empty home trail, saturated food trail,
silent nest-signal field, no food sources. -/
def deliveryState : SimulationState :=
  { nest := exampleNest
    ants := [deliveryAnt]
    foodSources := []
    homePheromones := zerosGridR
    foodPheromones := onesGridR
    nestSignals := zerosGridR
    stats := ⟨0, 0⟩
    foodRespawnTimer := 0 }

/-- A foraging ant standing at the nest center. -/
def pickupAnt : Ant :=
  { id := 0
    position := ⟨60, 40⟩
    direction := 0
    carryingFood := false
    speed := 0
    pheromoneCooldown := 0
    depositAccumulator := 0
    personalIntensity := 0
    lastDirection := 0
    stalledTime := 0
    carryingTime := 0
    forceReturn := false
    nestSignalTimer := 0
    nestSignalAccumulator := 0
    pathIntegration := ⟨0, 0⟩ }

/-- A food source over the nest center holding half a unit of food. -/
def halfSource : FoodSource :=
  { id := 0
    position := ⟨60, 40⟩
    radius := 3
    capacity := 1/2
    maxCapacity := 250
    depletionRate := 0.05 }

/-- A food source over the nest center at its default full capacity. -/
def fullSource : FoodSource := { halfSource with capacity := 250 }

/-- A carrying, non-stalled ant whose deposit accumulator is about to cross
the 0.1 s deposit interval. -/
def depositAntC : Ant :=
  { pickupAnt with
    position := ⟨60.5, 40.5⟩
    carryingFood := true
    depositAccumulator := 0.06 }

/-- A non-stalled ant with a running nest-signal timer whose accumulator is
about to cross the 0.15 s emission interval. -/
def signalAnt : Ant :=
  { pickupAnt with
    nestSignalTimer := 6
    nestSignalAccumulator := 0.1 }

end

end RealExamples

/-! ### Theorems -/

section GridTheorems

variable {α : Type} [LinearOrderedField α] [FloorRing α]

lemma sampleGridCell_weight_nonneg (g : PheromoneGrid α) (p : Vector2 α) :
    0 ≤ (sampleGridCell g p).2 := by
  unfold sampleGridCell
  dsimp only
  split <;> norm_num

lemma getD_nonneg {l : List α} (h : ∀ v ∈ l, 0 ≤ v) (i : ℕ) : 0 ≤ l.getD i 0 := by
  rcases lt_or_le i l.length with hi | hi
  · rw [List.getD_eq_getElem l 0 hi]
    exact h _ (l.getElem_mem hi)
  · rw [List.getD_eq_default l 0 hi]

lemma clamped_add_mem {v : α} (hv0 : 0 ≤ v) : 0 ≤ min 1 v ∧ min 1 v ≤ 1 :=
  ⟨le_min (by norm_num) hv0, min_le_left _ _⟩

lemma depositPheromone_preserves (g : PheromoneGrid α) (p : Vector2 α) {a : α}
    (ha : 0 ≤ a) (hg : ∀ v ∈ g.values, 0 ≤ v ∧ v ≤ 1) :
    ∀ v ∈ (depositPheromone g p a).values, 0 ≤ v ∧ v ≤ 1 := by
  unfold depositPheromone
  dsimp only
  split
  · exact hg
  · intro v hv
    rcases List.mem_or_eq_of_mem_set hv with hmem | hval
    · exact hg v hmem
    · subst hval
      refine clamped_add_mem (add_nonneg ?_ ?_)
      · exact getD_nonneg (fun w hw => (hg w hw).1) _
      · exact mul_nonneg ha (sampleGridCell_weight_nonneg g p)

lemma markNestSignal_preserves (g : PheromoneGrid α) (p : Vector2 α) {a : α}
    (ha : 0 ≤ a) (hg : ∀ v ∈ g.values, 0 ≤ v ∧ v ≤ 1) :
    ∀ v ∈ (markNestSignal g p a).values, 0 ≤ v ∧ v ≤ 1 := by
  unfold markNestSignal
  dsimp only
  split
  · exact hg
  · intro v hv
    rcases List.mem_or_eq_of_mem_set hv with hmem | hval
    · exact hg v hmem
    · subst hval
      refine clamped_add_mem (add_nonneg ?_ ?_)
      · exact getD_nonneg (fun w hw => (hg w hw).1) _
      · exact mul_nonneg ha (sampleGridCell_weight_nonneg g p)

lemma evaporateFactor_mem {rate delta : α} (hr : 0 ≤ rate) (hd : 0 ≤ delta) :
    0 ≤ max 0 (1 - rate * delta) ∧ max 0 (1 - rate * delta) ≤ 1 := by
  constructor
  · exact le_max_left _ _
  · refine max_le (by norm_num) ?_
    have : 0 ≤ rate * delta := mul_nonneg hr hd
    linarith

lemma evaporateCell_preserves {factor v : α} (hf : 0 ≤ factor ∧ factor ≤ 1)
    (hv : 0 ≤ v ∧ v ≤ 1) : 0 ≤ evaporateCell factor v ∧ evaporateCell factor v ≤ 1 := by
  unfold evaporateCell
  dsimp only
  split
  · refine ⟨mul_nonneg hv.1 hf.1, ?_⟩
    calc v * factor ≤ 1 * 1 := mul_le_mul hv.2 hf.2 hf.1 (by norm_num)
    _ = 1 := one_mul 1
  · norm_num

lemma evaporatePheromones_preserves (g : PheromoneGrid α) {rate delta : α}
    (hr : 0 ≤ rate) (hd : 0 ≤ delta) (hg : ∀ v ∈ g.values, 0 ≤ v ∧ v ≤ 1) :
    ∀ v ∈ (evaporatePheromones g rate delta).values, 0 ≤ v ∧ v ≤ 1 := by
  unfold evaporatePheromones
  dsimp only
  intro v hv
  rcases List.mem_map.1 hv with ⟨w, hw, rfl⟩
  exact evaporateCell_preserves (evaporateFactor_mem hr hd) (hg w hw)

lemma applyGridOp_preserves (g : PheromoneGrid α) {op : GridOp α}
    (hop : ValidGridOp op) (hg : ∀ v ∈ g.values, 0 ≤ v ∧ v ≤ 1) :
    ∀ v ∈ (applyGridOp g op).values, 0 ≤ v ∧ v ≤ 1 := by
  cases op with
  | deposit p a => exact depositPheromone_preserves g p hop hg
  | mark p a => exact markNestSignal_preserves g p hop hg
  | evaporate rate delta => exact evaporatePheromones_preserves g hop.1 hop.2 hg

lemma applyGridOps_preserves (ops : List (GridOp α)) :
    ∀ g : PheromoneGrid α, (∀ v ∈ g.values, 0 ≤ v ∧ v ≤ 1) →
      (∀ op ∈ ops, ValidGridOp op) →
      ∀ v ∈ (applyGridOps g ops).values, 0 ≤ v ∧ v ≤ 1 := by
  induction ops with
  | nil => intro g hg _; exact hg
  | cons op rest ih =>
      intro g hg hops
      have h1 := applyGridOp_preserves g (hops op (List.mem_cons_self op rest)) hg
      exact ih (applyGridOp g op)
        h1 (fun o ho => hops o (List.mem_cons_of_mem op ho))

/-- C1: starting from a pheromone grid whose cells all lie in [0, 1], any
sequence of deposits and nest-signal marks with non-negative amounts and
evaporation passes with non-negative rate and time step keeps every cell in
[0, 1]; moreover any cell whose evaporated value falls below 0.001 during an
evaporation pass is set to exactly 0. -/
theorem C1_grid_invariant (g : PheromoneGrid α) (ops : List (GridOp α))
    (hg : ∀ v ∈ g.values, 0 ≤ v ∧ v ≤ 1)
    (hops : ∀ op ∈ ops, ValidGridOp op) :
    (∀ v ∈ (applyGridOps g ops).values, 0 ≤ v ∧ v ≤ 1) ∧
    (∀ (g2 : PheromoneGrid α) (rate delta : α) (i : ℕ),
      g2.values.getD i 0 * max 0 (1 - rate * delta) < 0.001 →
      (evaporatePheromones g2 rate delta).values.getD i 0 = 0) := by
  refine ⟨applyGridOps_preserves ops g hg hops, ?_⟩
  intro g2 rate delta i hsmall
  unfold evaporatePheromones
  dsimp only
  rcases lt_or_le i g2.values.length with hi | hi
  · rw [List.getD_eq_getElem _ 0 (by simpa using hi), List.getElem_map]
    rw [List.getD_eq_getElem _ 0 hi] at hsmall
    unfold evaporateCell
    dsimp only
    rw [if_neg (not_lt.2 (le_of_lt hsmall))]
  · rw [List.getD_eq_default _ 0 (by simpa using hi)]

/-- Witness for C1 at a concrete rational grid and operation sequence. -/
theorem C1_grid_invariant_witness :
    ((∀ v ∈ exampleGridQ.values, 0 ≤ v ∧ v ≤ 1) ∧
      (∀ op ∈ exampleOpsQ, ValidGridOp op)) ∧
    ((∀ v ∈ (applyGridOps exampleGridQ exampleOpsQ).values, 0 ≤ v ∧ v ≤ 1) ∧
      (∀ (g2 : PheromoneGrid ℚ) (rate delta : ℚ) (i : ℕ),
        g2.values.getD i 0 * max 0 (1 - rate * delta) < 0.001 →
        (evaporatePheromones g2 rate delta).values.getD i 0 = 0)) :=
  ⟨⟨by norm_num [exampleGridQ], by norm_num [exampleOpsQ, ValidGridOp]⟩,
    C1_grid_invariant exampleGridQ exampleOpsQ (by norm_num [exampleGridQ])
      (by norm_num [exampleOpsQ, ValidGridOp])⟩

/-- C9: at any world point whose cell falls outside the grid bounds, a
deposit leaves the grid unchanged and a sample returns exactly 0. -/
theorem C9_out_of_bounds (g : PheromoneGrid α) (p : Vector2 α) (amount : α)
    (h : ⌊p.x / g.cellSize⌋ < 0 ∨ ⌊p.y / g.cellSize⌋ < 0 ∨
      g.columns ≤ ⌊p.x / g.cellSize⌋ ∨ g.rows ≤ ⌊p.y / g.cellSize⌋) :
    depositPheromone g p amount = g ∧ sampleGridValue g p = 0 := by
  have hcell : sampleGridCell g p = (-1, 0) := by
    unfold sampleGridCell
    exact if_pos h
  constructor
  · unfold depositPheromone
    rw [hcell]
    norm_num
  · unfold sampleGridValue
    rw [hcell]
    norm_num

/-- Witness for C9 at a concrete out-of-bounds point. -/
theorem C9_out_of_bounds_witness :
    (⌊(-1 : ℚ) / exampleGridQ.cellSize⌋ < 0 ∨
      ⌊(0 : ℚ) / exampleGridQ.cellSize⌋ < 0 ∨
      exampleGridQ.columns ≤ ⌊(-1 : ℚ) / exampleGridQ.cellSize⌋ ∨
      exampleGridQ.rows ≤ ⌊(0 : ℚ) / exampleGridQ.cellSize⌋) ∧
    (depositPheromone exampleGridQ ⟨-1, 0⟩ 1 = exampleGridQ ∧
      sampleGridValue exampleGridQ ⟨-1, 0⟩ = 0) :=
  ⟨by norm_num [exampleGridQ], C9_out_of_bounds exampleGridQ ⟨-1, 0⟩ 1
    (by norm_num [exampleGridQ])⟩

end GridTheorems

section TickTheorems

lemma simulation_step_pos : (0:ℚ) < SIMULATION_STEP := by norm_num [SIMULATION_STEP]

lemma tickLoop_eq (a : ℚ) (ha : 0 ≤ a) :
    tickLoop a = (List.replicate ⌊a / SIMULATION_STEP⌋.toNat SIMULATION_STEP,
      a - SIMULATION_STEP * ⌊a / SIMULATION_STEP⌋.toNat) := by
  induction a using tickLoop.induct with
  | case1 a hle ih =>
      have hstep := simulation_step_pos
      have hsub : (0:ℚ) ≤ a - SIMULATION_STEP := by linarith
      have h1 : (1:ℚ) ≤ a / SIMULATION_STEP := (le_div_iff₀ hstep).2 (by simpa using hle)
      have hfl : ⌊(a - SIMULATION_STEP) / SIMULATION_STEP⌋
          = ⌊a / SIMULATION_STEP⌋ - 1 := by
        rw [sub_div, div_self (ne_of_gt hstep)]
        exact Int.floor_sub_one _
      have hpos : (1:ℤ) ≤ ⌊a / SIMULATION_STEP⌋ := Int.le_floor.2 (by exact_mod_cast h1)
      have htn : ⌊a / SIMULATION_STEP⌋.toNat = ⌊(a - SIMULATION_STEP) / SIMULATION_STEP⌋.toNat + 1 := by
        rw [hfl]; omega
      rw [tickLoop, if_pos hle, ih hsub, htn]
      dsimp only
      rw [List.replicate_succ]
      refine Prod.ext rfl ?_
      push_cast
      ring
  | case2 a hlt =>
      have hstep := simulation_step_pos
      have hq : (0:ℚ) ≤ a / SIMULATION_STEP := div_nonneg ha (le_of_lt hstep)
      have hq1 : a / SIMULATION_STEP < 1 := (div_lt_one hstep).2 (by
        simpa using not_le.1 hlt)
      have hfl : ⌊a / SIMULATION_STEP⌋ = 0 := by
        rw [Int.floor_eq_zero_iff]
        exact ⟨hq, hq1⟩
      rw [tickLoop, if_neg hlt, hfl]
      norm_num

/-- C7: an external frame tick with raw elapsed duration `d` and accumulator
`a` adds `min (d * timeScale) 0.5` to the accumulator, runs exactly
`⌊accumulator / 0.05⌋` whole update passes each with the fixed step 0.05 s,
and leaves a remainder in [0, 0.05) as the next accumulator. -/
theorem C7_fixed_step_integrator (a d ts : ℚ) (ha0 : 0 ≤ a)
    (ha1 : a < SIMULATION_STEP) (hd : 0 ≤ d) (hts : 0 ≤ ts) :
    tick a d ts =
      (List.replicate ⌊(a + min (d * ts) MAX_FRAME_DELTA) / SIMULATION_STEP⌋.toNat
        SIMULATION_STEP,
       (a + min (d * ts) MAX_FRAME_DELTA) - SIMULATION_STEP *
        ⌊(a + min (d * ts) MAX_FRAME_DELTA) / SIMULATION_STEP⌋.toNat) ∧
    0 ≤ (tick a d ts).2 ∧ (tick a d ts).2 < SIMULATION_STEP := by
  have hstep := simulation_step_pos
  have hmin : (0:ℚ) ≤ min (d * ts) MAX_FRAME_DELTA :=
    le_min (mul_nonneg hd hts) (by norm_num [MAX_FRAME_DELTA])
  have htotal : (0:ℚ) ≤ a + min (d * ts) MAX_FRAME_DELTA := by linarith
  have heq : tick a d ts = tickLoop (a + min (d * ts) MAX_FRAME_DELTA) := rfl
  have hspec := tickLoop_eq (a + min (d * ts) MAX_FRAME_DELTA) htotal
  set total := a + min (d * ts) MAX_FRAME_DELTA with htot
  have hfl0 : (0:ℤ) ≤ ⌊total / SIMULATION_STEP⌋ :=
    Int.floor_nonneg.2 (div_nonneg htotal (le_of_lt hstep))
  have hcast : ((⌊total / SIMULATION_STEP⌋.toNat : ℕ) : ℚ)
      = ((⌊total / SIMULATION_STEP⌋ : ℤ) : ℚ) := by
    exact_mod_cast Int.toNat_of_nonneg hfl0
  refine ⟨by rw [heq, hspec], ?_, ?_⟩
  · rw [heq, hspec]
    dsimp only
    rw [hcast]
    have hle := Int.floor_le (total / SIMULATION_STEP)
    have : SIMULATION_STEP * (⌊total / SIMULATION_STEP⌋ : ℚ) ≤ total := by
      rw [mul_comm]
      calc (⌊total / SIMULATION_STEP⌋ : ℚ) * SIMULATION_STEP
          ≤ total / SIMULATION_STEP * SIMULATION_STEP :=
            mul_le_mul_of_nonneg_right hle (le_of_lt hstep)
      _ = total := div_mul_cancel₀ total (ne_of_gt hstep)
    linarith
  · rw [heq, hspec]
    dsimp only
    rw [hcast]
    have hlt := Int.lt_floor_add_one (total / SIMULATION_STEP)
    have : total < SIMULATION_STEP * (⌊total / SIMULATION_STEP⌋ : ℚ) + SIMULATION_STEP := by
      have := mul_lt_mul_of_pos_right hlt hstep
      rw [add_mul, one_mul, div_mul_cancel₀ total (ne_of_gt hstep)] at this
      linarith
    linarith

/-- Witness for C7 at a concrete frame: accumulator 0.04 s, raw delta 0.2 s,
time scale 3 (the scaled delta 0.6 is clamped to 0.5). -/
theorem C7_fixed_step_integrator_witness :
    ((0:ℚ) ≤ 1/25 ∧ (1/25:ℚ) < SIMULATION_STEP ∧ (0:ℚ) ≤ 1/5 ∧ (0:ℚ) ≤ 3) ∧
    (tick (1/25) (1/5) 3 =
      (List.replicate ⌊((1/25:ℚ) + min ((1/5) * 3) MAX_FRAME_DELTA) / SIMULATION_STEP⌋.toNat
        SIMULATION_STEP,
       ((1/25:ℚ) + min ((1/5) * 3) MAX_FRAME_DELTA) - SIMULATION_STEP *
        ⌊((1/25:ℚ) + min ((1/5) * 3) MAX_FRAME_DELTA) / SIMULATION_STEP⌋.toNat) ∧
      0 ≤ (tick (1/25) (1/5) 3).2 ∧ (tick (1/25) (1/5) 3).2 < SIMULATION_STEP) :=
  ⟨⟨by norm_num, by norm_num [SIMULATION_STEP], by norm_num, by norm_num⟩,
    C7_fixed_step_integrator (1/25) (1/5) 3 (by norm_num)
      (by norm_num [SIMULATION_STEP]) (by norm_num) (by norm_num)⟩

end TickTheorems

section FoodTheorems

lemma foodRun_none (ops : List FoodOp) : foodRun ops none = none := by
  cases ops with
  | nil => rfl
  | cons op rest => cases op <;> rfl

lemma foodRun_append (p q : List FoodOp) :
    ∀ s : Option ℚ, foodRun (p ++ q) s = foodRun q (foodRun p s) := by
  induction p with
  | nil =>
      intro s
      cases s with
      | none => simp [foodRun_none]
      | some c => rfl
  | cons op rest ih =>
      intro s
      cases s with
      | none => rw [foodRun_none, foodRun_none, foodRun_none]
      | some c =>
          cases op with
          | pickup => simpa [foodRun] using ih _
          | depletionPass e r m d => simpa [foodRun] using ih _

lemma depleteCap_bounds {e : Bool} {r m d c : ℚ} (hr : 0 ≤ r) (hd : 0 ≤ d)
    (hc : 0 ≤ c) : 0 ≤ depleteCap e r m d c ∧ depleteCap e r m d c ≤ c := by
  unfold depleteCap
  split
  · constructor
    · exact le_max_left _ _
    · refine max_le hc ?_
      have : 0 ≤ r * max 0 m * d :=
        mul_nonneg (mul_nonneg hr (le_max_left _ _)) hd
      linarith
  · exact ⟨hc, le_refl c⟩

lemma foodRun_bounds (ops : List FoodOp) :
    ∀ c0 M : ℚ, 0 ≤ c0 → c0 ≤ M → (∀ op ∈ ops, ValidFoodOp op) →
      ∀ c, foodRun ops (some c0) = some c → 0 ≤ c ∧ c ≤ M := by
  induction ops with
  | nil =>
      intro c0 M h0 hM _ c hc
      cases hc
      exact ⟨h0, hM⟩
  | cons op rest ih =>
      intro c0 M h0 hM hops c hc
      cases op with
      | pickup =>
          have h0b : 0 ≤ max 0 (c0 - 1) := le_max_left _ _
          have hMb : max 0 (c0 - 1) ≤ M := max_le (le_trans h0 hM) (by linarith)
          exact ih _ M h0b hMb (fun o ho => hops o (List.mem_cons_of_mem _ ho)) c hc
      | depletionPass e r m d =>
          have hv := hops _ (List.mem_cons_self _ rest)
          have hb := depleteCap_bounds (e := e) (m := m) (c := c0) hv.1 hv.2 h0
          unfold foodRun at hc
          dsimp only at hc
          by_cases hkeep : (0.1 : ℚ) < depleteCap e r m d c0
          · rw [if_pos hkeep] at hc
            exact ih _ M hb.1 (le_trans hb.2 hM)
              (fun o ho => hops o (List.mem_cons_of_mem _ ho)) c hc
          · rw [if_neg hkeep, foodRun_none] at hc
            cases hc

/-- C4 (amended): from any initial capacity in [0, maxCapacity], any sequence
of agent pickups and depletion passes with non-negative rate and time step
keeps the capacity in [0, maxCapacity]; a depletion pass removes the source
exactly when the post-depletion capacity drops to at most 0.1 (kept exactly
while it stays strictly above 0.1); a removed source is never present
afterwards.  At the list level, every source retained by
`handleFoodDepletion` has capacity strictly above 0.1. -/
theorem C4_capacity_lifecycle (c0 M : ℚ) (ops : List FoodOp) (h0 : 0 ≤ c0)
    (hM : c0 ≤ M) (hops : ∀ op ∈ ops, ValidFoodOp op) :
    (∀ c, foodRun ops (some c0) = some c → 0 ≤ c ∧ c ≤ M) ∧
    (∀ (e : Bool) (r m d c : ℚ), foodRun ops (some c0) = some c →
      (foodRun (ops ++ [FoodOp.depletionPass e r m d]) (some c0) = none ↔
        depleteCap e r m d c ≤ 0.1)) ∧
    (∀ q, foodRun ops (some c0) = none → foodRun (ops ++ q) (some c0) = none) ∧
    (∀ (en : Bool) (mult delta : ℝ) (sources : List FoodSource) (s : FoodSource),
      s ∈ handleFoodDepletion en mult delta sources → (0.1 : ℝ) < s.capacity) := by
  refine ⟨foodRun_bounds ops c0 M h0 hM hops, ?_, ?_, ?_⟩
  · intro e r m d c hc
    rw [foodRun_append, hc]
    unfold foodRun
    dsimp only
    constructor
    · intro hnone
      by_contra hgt
      rw [if_pos (not_le.1 hgt)] at hnone
      simp [foodRun] at hnone
    · intro hle
      rw [if_neg (not_lt.2 hle)]
      exact foodRun_none []
  · intro q hnone
    rw [foodRun_append, hnone, foodRun_none]
  · intro en mult delta sources s hs
    unfold handleFoodDepletion at hs
    have := (List.mem_filter.1 hs).2
    simpa using of_decide_eq_true this

/-- Witness for C4 with a concrete capacity trajectory: capacity 5 of
maximum 10, one pickup then one enabled depletion pass. -/
theorem C4_capacity_lifecycle_witness :
    ((0:ℚ) ≤ 5 ∧ (5:ℚ) ≤ 10 ∧
      (∀ op ∈ [FoodOp.pickup, FoodOp.depletionPass true (1/20) 1 (1/20)],
        ValidFoodOp op)) ∧
    ((∀ c, foodRun [FoodOp.pickup, FoodOp.depletionPass true (1/20) 1 (1/20)]
        (some 5) = some c → 0 ≤ c ∧ c ≤ 10) ∧
     (∀ (e : Bool) (r m d c : ℚ),
        foodRun [FoodOp.pickup, FoodOp.depletionPass true (1/20) 1 (1/20)]
          (some 5) = some c →
        (foodRun ([FoodOp.pickup, FoodOp.depletionPass true (1/20) 1 (1/20)] ++
            [FoodOp.depletionPass e r m d]) (some 5) = none ↔
          depleteCap e r m d c ≤ 0.1)) ∧
     (∀ q, foodRun [FoodOp.pickup, FoodOp.depletionPass true (1/20) 1 (1/20)]
          (some 5) = none →
        foodRun ([FoodOp.pickup, FoodOp.depletionPass true (1/20) 1 (1/20)] ++ q)
          (some 5) = none) ∧
     (∀ (en : Bool) (mult delta : ℝ) (sources : List FoodSource) (s : FoodSource),
        s ∈ handleFoodDepletion en mult delta sources → (0.1 : ℝ) < s.capacity)) :=
  ⟨⟨by norm_num, by norm_num, by norm_num [ValidFoodOp]⟩,
    C4_capacity_lifecycle 5 10 _ (by norm_num) (by norm_num)
      (by norm_num [ValidFoodOp])⟩

/-- The depletion pass applied 99 times in the C4 counterexample: passive
depletion enabled, source depletion rate 0.5, settings multiplier 4, fixed
step 0.05 s, so each pass removes exactly 0.1 unit of capacity. -/
def examplePass : FoodOp := FoodOp.depletionPass true (1/2) 4 (1/20)

lemma examplePass_step {c : ℚ} (hc : 0 < c) (h1 : (0:ℚ) ≤ c - 1/10) :
    depleteCap true (1/2) 4 (1/20) c = c - 1/10 := by
  unfold depleteCap
  rw [if_pos ⟨rfl, hc⟩]
  have : (1/2 : ℚ) * max 0 4 * (1/20) = 1/10 := by norm_num
  rw [this]
  exact max_eq_right h1

lemma foodRun_examplePass (n : ℕ) :
    ∀ c : ℚ, 1/10 < c - n * (1/10) →
      foodRun (List.replicate n examplePass) (some c) = some (c - n * (1/10)) := by
  induction n with
  | zero => intro c _; norm_num [foodRun]
  | succ n ih =>
      intro c hc
      have hn : (0:ℚ) ≤ (n : ℚ) := Nat.cast_nonneg n
      have hcast : ((n + 1 : ℕ) : ℚ) = (n : ℚ) + 1 := by push_cast; ring
      rw [hcast] at hc
      have hcpos : 0 < c := by nlinarith
      have hsub : (0:ℚ) ≤ c - 1/10 := by nlinarith
      rw [List.replicate_succ]
      show foodRun (examplePass :: List.replicate n examplePass) (some c) = _
      unfold examplePass foodRun
      dsimp only
      rw [examplePass_step hcpos hsub]
      have hkeep : (0.1:ℚ) < c - 1/10 := by nlinarith
      rw [if_pos hkeep]
      have hrec := ih (c - 1/10) (by push_cast; linarith)
      rw [show (List.replicate n (FoodOp.depletionPass true (1/2) 4 (1/20)))
          = List.replicate n examplePass from rfl, hrec, hcast]
      congr 1
      ring

/-- Counterexample to C4 as stated: starting from capacity 10, after 98
depletion passes of 0.1 each the capacity is exactly 0.2; the 99th pass
brings it to exactly 0.1 — not strictly below 0.1 — and the source is
nevertheless removed, so a source can be removed while its capacity is
still at least 0.1. -/
theorem C4_counterexample :
    foodRun (List.replicate 98 examplePass) (some 10) = some (1/5) ∧
    depleteCap true (1/2) 4 (1/20) (1/5) = 1/10 ∧
    ¬ ((1/10 : ℚ) < 1/10) ∧
    foodRun (List.replicate 99 examplePass) (some 10) = none := by
  have h98 : foodRun (List.replicate 98 examplePass) (some 10) = some (1/5) := by
    have := foodRun_examplePass 98 10 (by norm_num)
    rw [this]
    norm_num
  have hstep : depleteCap true (1/2) 4 (1/20) (1/5) = 1/10 := by
    rw [examplePass_step (by norm_num) (by norm_num)]
    norm_num
  refine ⟨h98, hstep, by norm_num, ?_⟩
  have hsplit : List.replicate 99 examplePass
      = List.replicate 98 examplePass ++ [examplePass] := by
    rw [← List.replicate_succ']
  rw [hsplit, foodRun_append, h98]
  unfold examplePass foodRun
  dsimp only
  rw [hstep, if_neg (by norm_num : ¬ ((0.1:ℚ) < 1/10))]
  exact foodRun_none []

lemma decrementAt_get (l : List FoodSource) :
    ∀ (i : ℕ) (s : FoodSource), l[i]? = some s →
      (decrementAt l i)[i]? = some { s with capacity := max 0 (s.capacity - 1) } := by
  induction l with
  | nil => intro i s hs; simp at hs
  | cons a rest ih =>
      intro i s hs
      cases i with
      | zero =>
          simp only [List.getElem?_cons_zero, Option.some.injEq] at hs
          subst hs
          simp [decrementAt]
      | succ n =>
          simp only [List.getElem?_cons_succ] at hs
          simpa [decrementAt] using ih n s hs

/-- C3 (amended): a foraging ant standing inside the radius of a food source
with positive capacity (the first such source in the scan order) picks up
food: `carryingFood` becomes true, `carryingTime` resets to 0, and the
source's capacity becomes `max 0 (capacity - 1)` — a decrement of exactly 1
whenever at least one unit remains. -/
theorem C3_pickup (rng : ℕ → ℝ) (k : ℕ) (ant : Ant) (sources : List FoodSource)
    (foodGrid : GridR) (settings : SimulationSettings) (nest : Nest)
    (nestPosition : Vec2) (delivered : ℕ) (i : ℕ) (s : FoodSource)
    (hcarry : ant.carryingFood = false)
    (hfind : findFoodSourceIdx sources ant.position = some i)
    (hget : sources[i]? = some s) :
    (transitionStage rng k ant sources foodGrid settings nest nestPosition
        delivered).1.carryingFood = true ∧
    (transitionStage rng k ant sources foodGrid settings nest nestPosition
        delivered).1.carryingTime = 0 ∧
    (transitionStage rng k ant sources foodGrid settings nest nestPosition
        delivered).2.1 = decrementAt sources i ∧
    (decrementAt sources i)[i]? =
      some { s with capacity := max 0 (s.capacity - 1) } ∧
    (1 ≤ s.capacity → max 0 (s.capacity - 1) = s.capacity - 1) := by
  have hdec := decrementAt_get sources i s hget
  unfold transitionStage
  rw [hcarry]
  simp only [Bool.false_eq_true, if_false, apply_ite Ant.position, ite_self]
  rw [hfind]
  exact ⟨rfl, rfl, rfl, hdec, fun h => max_eq_right (by linarith)⟩

/-- Witness for C3: a foraging ant at the nest center over a source with
capacity 250 picks it up and the capacity drops to exactly 249. -/
theorem C3_pickup_witness :
    (pickupAnt.carryingFood = false ∧
      findFoodSourceIdx [fullSource] pickupAnt.position = some 0 ∧
      [fullSource][0]? = some fullSource) ∧
    ((transitionStage rngZero 0 pickupAnt [fullSource] zerosGridR exampleSettings
        exampleNest ⟨60, 40⟩ 0).1.carryingFood = true ∧
     (transitionStage rngZero 0 pickupAnt [fullSource] zerosGridR exampleSettings
        exampleNest ⟨60, 40⟩ 0).1.carryingTime = 0 ∧
     (transitionStage rngZero 0 pickupAnt [fullSource] zerosGridR exampleSettings
        exampleNest ⟨60, 40⟩ 0).2.1 = decrementAt [fullSource] 0 ∧
     (decrementAt [fullSource] 0)[0]? =
       some { fullSource with capacity := max 0 (fullSource.capacity - 1) } ∧
     (1 ≤ fullSource.capacity →
       max 0 (fullSource.capacity - 1) = fullSource.capacity - 1)) := by
  have hcarry : pickupAnt.carryingFood = false := rfl
  have hfind : findFoodSourceIdx [fullSource] pickupAnt.position = some 0 := by
    unfold findFoodSourceIdx
    rw [if_pos]
    refine ⟨?_, by norm_num [fullSource, halfSource]⟩
    norm_num [distance, pickupAnt, fullSource, halfSource, Real.sqrt_zero]
  have hget : [fullSource][0]? = some fullSource := rfl
  exact ⟨⟨hcarry, hfind, hget⟩,
    C3_pickup rngZero 0 pickupAnt [fullSource] zerosGridR exampleSettings
      exampleNest ⟨60, 40⟩ 0 0 fullSource hcarry hfind hget⟩

/-- Counterexample to C3 as stated: a foraging ant inside a source of
capacity 0.5 (reachable by passive depletion, which stops removal only below
0.1) picks up food, and the capacity becomes 0 — a decrement of 0.5, not
exactly 1. -/
theorem C3_counterexample :
    (transitionStage rngZero 0 pickupAnt [halfSource] zerosGridR exampleSettings
        exampleNest ⟨60, 40⟩ 0).2.1 = [{ halfSource with capacity := 0 }] ∧
    ¬ (({ halfSource with capacity := 0 } : FoodSource).capacity
        = halfSource.capacity - 1) := by
  have hfind : findFoodSourceIdx [halfSource] pickupAnt.position = some 0 := by
    unfold findFoodSourceIdx
    rw [if_pos]
    refine ⟨?_, by norm_num [halfSource]⟩
    norm_num [distance, pickupAnt, halfSource, Real.sqrt_zero]
  constructor
  · unfold transitionStage
    rw [show pickupAnt.carryingFood = false from rfl]
    simp only [Bool.false_eq_true, if_false, apply_ite Ant.position, ite_self]
    rw [hfind]
    have hmax : max (0:ℝ) (1/2 - 1) = 0 := max_eq_left (by norm_num)
    show decrementAt [halfSource] 0 = [{ halfSource with capacity := 0 }]
    unfold decrementAt
    rw [show halfSource.capacity = 1/2 from rfl, hmax]
  · show ¬ ((0:ℝ) = halfSource.capacity - 1)
    norm_num [halfSource]

end FoodTheorems

section DepositTheorems

open Real

/-- C2 (amended): when the 0.1 s deposit interval has elapsed and the ant is
not stall-suppressed, the deposit of `depositionRate * intervalsElapsed` goes
into the food-trail grid while the ant carries food, and into the home-trail
grid while it forages; the other grid is left untouched. -/
theorem C2_deposit_pairing (ant : Ant) (home food : GridR)
    (settings : SimulationSettings) (delta : ℝ)
    (hstall : ant.stalledTime < 0.3)
    (hacc : (0.1:ℝ) ≤ ant.depositAccumulator + delta) :
    (ant.carryingFood = true →
      (depositStage ant home food settings delta).2.1 = home ∧
      (depositStage ant home food settings delta).2.2 =
        depositPheromone food ant.position
          (settings.depositionRate *
            ((⌊(ant.depositAccumulator + delta) / 0.1⌋ : ℤ) : ℝ))) ∧
    (ant.carryingFood = false →
      (depositStage ant home food settings delta).2.2 = food ∧
      (depositStage ant home food settings delta).2.1 =
        depositPheromone home ant.position
          (settings.depositionRate *
            ((⌊(ant.depositAccumulator + delta) / 0.1⌋ : ℤ) : ℝ))) := by
  unfold depositStage
  rw [if_pos hstall]
  dsimp only
  rw [if_pos hacc]
  refine ⟨fun hcarry => ?_, fun hforage => ?_⟩
  · simp only [hcarry, if_true]
    exact ⟨trivial, trivial⟩
  · simp only [hforage, Bool.false_eq_true, if_false]
    exact ⟨trivial, trivial⟩

/-- Witness for C2 at a concrete carrying ant crossing the interval. -/
theorem C2_deposit_pairing_witness :
    (depositAntC.stalledTime < 0.3 ∧
      (0.1:ℝ) ≤ depositAntC.depositAccumulator + 0.05) ∧
    ((depositAntC.carryingFood = true →
      (depositStage depositAntC zerosGridR zerosGridR exampleSettings 0.05).2.1 =
        zerosGridR ∧
      (depositStage depositAntC zerosGridR zerosGridR exampleSettings 0.05).2.2 =
        depositPheromone zerosGridR depositAntC.position
          (exampleSettings.depositionRate *
            ((⌊(depositAntC.depositAccumulator + 0.05) / 0.1⌋ : ℤ) : ℝ))) ∧
    (depositAntC.carryingFood = false →
      (depositStage depositAntC zerosGridR zerosGridR exampleSettings 0.05).2.2 =
        zerosGridR ∧
      (depositStage depositAntC zerosGridR zerosGridR exampleSettings 0.05).2.1 =
        depositPheromone zerosGridR depositAntC.position
          (exampleSettings.depositionRate *
            ((⌊(depositAntC.depositAccumulator + 0.05) / 0.1⌋ : ℤ) : ℝ)))) :=
  ⟨⟨by norm_num [depositAntC, pickupAnt], by norm_num [depositAntC, pickupAnt]⟩,
    C2_deposit_pairing depositAntC zerosGridR zerosGridR exampleSettings 0.05
      (by norm_num [depositAntC, pickupAnt]) (by norm_num [depositAntC, pickupAnt])⟩

lemma sampleGridCell_depositAntC (values : List ℝ) :
    sampleGridCell { zerosGridR with values := values } depositAntC.position
      = (4860, 1) := by
  have h1 : ({ zerosGridR with values := values } : GridR).cellSize = 1 := rfl
  have h2 : ({ zerosGridR with values := values } : GridR).columns = 120 := rfl
  have h3 : ({ zerosGridR with values := values } : GridR).rows = 80 := rfl
  have hx : depositAntC.position.x = 60.5 := rfl
  have hy : depositAntC.position.y = 40.5 := rfl
  unfold sampleGridCell
  rw [h1, h2, h3, hx, hy]
  have hcol : ⌊(60.5:ℝ) / (1:ℝ)⌋ = 60 := by norm_num
  have hrow : ⌊(40.5:ℝ) / (1:ℝ)⌋ = 40 := by norm_num
  rw [hcol, hrow, if_neg (by norm_num)]
  norm_num

/-- Counterexample to C2 as stated: a carrying, non-stalled ant whose deposit
interval elapses leaves the home-trail grid untouched and deposits into the
food-trail grid instead (the sampled food-trail value at its position rises
from 0 to 0.55). -/
theorem C2_counterexample :
    (depositStage depositAntC zerosGridR zerosGridR exampleSettings 0.05).2.1 =
      zerosGridR ∧
    sampleGridValue
      ((depositStage depositAntC zerosGridR zerosGridR exampleSettings 0.05).2.2)
      depositAntC.position = 0.55 ∧
    sampleGridValue zerosGridR depositAntC.position = 0 := by
  have hstall : depositAntC.stalledTime < 0.3 := by norm_num [depositAntC, pickupAnt]
  have hacc : (0.1:ℝ) ≤ depositAntC.depositAccumulator + 0.05 := by
    norm_num [depositAntC, pickupAnt]
  have hcount : ⌊(depositAntC.depositAccumulator + 0.05) / (0.1:ℝ)⌋ = 1 := by
    norm_num [depositAntC, pickupAnt]
  have hcell0 := sampleGridCell_depositAntC (List.replicate 9600 0)
  have hzero : sampleGridValue zerosGridR depositAntC.position = 0 := by
    unfold sampleGridValue
    rw [show (zerosGridR : GridR) = { zerosGridR with values := List.replicate 9600 0 }
      from rfl, hcell0]
    norm_num [zerosGridR]
  have hdep : depositStage depositAntC zerosGridR zerosGridR exampleSettings 0.05 =
      ({ depositAntC with
          depositAccumulator := depositAntC.depositAccumulator + 0.05 - 0.1 * 1 },
        zerosGridR,
        depositPheromone zerosGridR depositAntC.position
          (exampleSettings.depositionRate * ((1:ℤ) : ℝ))) := by
    unfold depositStage
    rw [if_pos hstall]
    dsimp only
    rw [if_pos hacc, show depositAntC.carryingFood = true from rfl, hcount]
    norm_num
  refine ⟨by rw [hdep], ?_, hzero⟩
  rw [hdep]
  unfold depositPheromone
  rw [show (zerosGridR : GridR) = { zerosGridR with values := List.replicate 9600 0 }
    from rfl, hcell0]
  dsimp only
  rw [if_neg (by norm_num)]
  unfold sampleGridValue
  rw [sampleGridCell_depositAntC]
  dsimp only
  rw [if_neg (by norm_num)]
  show ((List.replicate 9600 (0:ℝ)).set (4860:ℤ).toNat
      (min 1 ((List.replicate 9600 (0:ℝ)).getD (4860:ℤ).toNat 0 +
        exampleSettings.depositionRate * ((1:ℤ):ℝ) * 1))).getD (4860:ℤ).toNat 0 = 0.55
  have htn : (4860:ℤ).toNat = 4860 := rfl
  have hlen : (4860:ℤ).toNat < (List.replicate 9600 (0:ℝ)).length := by
    rw [htn, List.length_replicate]
    norm_num
  have hget0 : (List.replicate 9600 (0:ℝ)).getD (4860:ℤ).toNat 0 = 0 := by
    rw [List.getD_eq_getElem _ _ hlen]
    rw [List.getElem_replicate]
  rw [List.getD_eq_getElem _ _ (by rw [List.length_set]; exact hlen),
    List.getElem_set_self, hget0]
  norm_num [exampleSettings]

end DepositTheorems

section FlagTheorems

lemma carryStage_flag (ant : Ant) (delta : ℝ) :
    (carryStage ant delta).forceReturn = true →
    (carryStage ant delta).carryingFood = true := by
  unfold carryStage
  dsimp only
  split
  · rename_i hcarry
    split
    · intro _
      exact hcarry
    · intro _
      exact hcarry
  · intro hf
    exact absurd hf (by simp)

lemma advanceAnt_flags (rng : ℕ → ℝ) (k : ℕ) (a : Ant) (m : ℝ) (nest : Vec2) :
    (advanceAntWithinWorld rng k a m nest).1.carryingFood = a.carryingFood ∧
    (advanceAntWithinWorld rng k a m nest).1.forceReturn = a.forceReturn := by
  unfold advanceAntWithinWorld
  dsimp only
  split
  · exact ⟨rfl, rfl⟩
  · exact ⟨rfl, rfl⟩

lemma moveStage_flags (rng : ℕ → ℝ) (k : ℕ) (a : Ant)
    (settings : SimulationSettings) (delta : ℝ) (nest : Vec2) :
    (moveStage rng k a settings delta nest).1.carryingFood = a.carryingFood ∧
    (moveStage rng k a settings delta nest).1.forceReturn = a.forceReturn :=
  ⟨(advanceAnt_flags rng k a (settings.antSpeed * delta) nest).1,
   (advanceAnt_flags rng k a (settings.antSpeed * delta) nest).2⟩

lemma stallStage_flags (rng : ℕ → ℝ) (k : ℕ) (a : Ant) (moved delta : ℝ)
    (nest : Vec2) :
    (stallStage rng k a moved delta nest).1.carryingFood = a.carryingFood ∧
    (stallStage rng k a moved delta nest).1.forceReturn = a.forceReturn := by
  unfold stallStage
  dsimp only
  split
  · split
    · exact ⟨rfl, rfl⟩
    · exact ⟨rfl, rfl⟩
  · exact ⟨rfl, rfl⟩

lemma depositStage_flags (a : Ant) (home food : GridR)
    (settings : SimulationSettings) (delta : ℝ) :
    (depositStage a home food settings delta).1.carryingFood = a.carryingFood ∧
    (depositStage a home food settings delta).1.forceReturn = a.forceReturn := by
  unfold depositStage
  dsimp only
  split
  · split
    · split
      · exact ⟨rfl, rfl⟩
      · exact ⟨rfl, rfl⟩
    · exact ⟨rfl, rfl⟩
  · exact ⟨rfl, rfl⟩

lemma nestSignalStage_flags (a : Ant) (g : GridR) (delta : ℝ) :
    (nestSignalStage a g delta).1.carryingFood = a.carryingFood ∧
    (nestSignalStage a g delta).1.forceReturn = a.forceReturn := by
  unfold nestSignalStage
  dsimp only
  split
  · split
    · split
      · exact ⟨rfl, rfl⟩
      · exact ⟨rfl, rfl⟩
    · exact ⟨rfl, rfl⟩
  · exact ⟨rfl, rfl⟩

lemma transitionStage_flag (rng : ℕ → ℝ) (k : ℕ) (a : Ant)
    (sources : List FoodSource) (grid : GridR) (settings : SimulationSettings)
    (nest : Nest) (nestPosition : Vec2) (delivered : ℕ)
    (hin : a.carryingFood = false → a.forceReturn = false) :
    (transitionStage rng k a sources grid settings nest nestPosition
      delivered).1.forceReturn = true →
    (transitionStage rng k a sources grid settings nest nestPosition
      delivered).1.carryingFood = true := by
  unfold transitionStage
  dsimp only
  split
  · rename_i hcarry
    split
    · intro hf
      simp at hf
    · intro _
      exact hcarry
  · rename_i hncarry
    split
    · intro _
      rfl
    · intro hf
      simp only [apply_ite Ant.forceReturn, apply_ite Ant.carryingFood,
        ite_self] at hf ⊢
      cases h : a.carryingFood with
      | true => rfl
      | false =>
          rw [hin h] at hf
          exact absurd hf (by simp)

/-- C6: after any single `updateAnt` call — whatever the incoming flag
combination, random stream, settings or shared state — the resulting ant
satisfies the flag invariant: `forceReturn` is true only while
`carryingFood` is true.  Since freshly created ants carry neither flag, the
invariant holds in every reachable state. -/
theorem C6_force_return_consistency (rng : ℕ → ℝ) (k : ℕ) (ant : Ant)
    (state : SimulationState) (settings : SimulationSettings) (delta : ℝ)
    (nestPosition : Vec2) :
    (updateAnt rng k ant state settings delta nestPosition).ant.forceReturn
      = false ∨
    (updateAnt rng k ant state settings delta nestPosition).ant.carryingFood
      = true := by
  cases hforce : (updateAnt rng k ant state settings delta
      nestPosition).ant.forceReturn with
  | false => exact Or.inl rfl
  | true => ?_
  right
  have h := hforce
  unfold updateAnt at h ⊢
  dsimp only at h ⊢
  refine transitionStage_flag _ _ _ _ _ _ _ _ _ ?_ h
  intro hcf
  have hchain : ∀ x : Ant,
      (x.forceReturn = true → x.carryingFood = true) →
      x.carryingFood = false → x.forceReturn = false := by
    intro x hx hc
    cases hxf : x.forceReturn with
    | false => rfl
    | true =>
        rw [hx hxf] at hc
        exact absurd hc (by simp)
  refine hchain _ ?_ hcf
  intro hf6
  rw [(nestSignalStage_flags _ _ _).1]
  rw [(nestSignalStage_flags _ _ _).2] at hf6
  rw [(depositStage_flags _ _ _ _ _).1]
  rw [(depositStage_flags _ _ _ _ _).2] at hf6
  rw [(stallStage_flags _ _ _ _ _ _).1]
  rw [(stallStage_flags _ _ _ _ _ _).2] at hf6
  rw [(moveStage_flags _ _ _ _ _ _).1]
  rw [(moveStage_flags _ _ _ _ _ _).2] at hf6
  exact carryStage_flag ant delta hf6

end FlagTheorems

section SpawnTheorems

lemma spawnLoop_timer (rng : ℕ → ℝ) (position : Vec2) (spread jitter : ℝ)
    (currentCount : ℕ) :
    ∀ (n k i : ℕ) (a : Ant),
      a ∈ spawnLoop rng position spread jitter currentCount k i n →
      a.nestSignalTimer = NEST_SIGNAL_DURATION ∧ a.carryingFood = false := by
  intro n
  induction n with
  | zero =>
      intro k i a ha
      simp [spawnLoop] at ha
  | succ m ih =>
      intro k i a ha
      rcases List.mem_cons.1 ha with rfl | hrest
      · exact ⟨rfl, rfl⟩
      · exact ih (k + 3) (i + 1) a hrest

/-- C10: `createAnt` always arms the nest-signal timer to the full
`NEST_SIGNAL_DURATION` of 6 s with `carryingFood` false; every ant appended
by population growth is such a fresh ant (or was already present); and while
the timer is positive and the ant is not stalled, each elapsed 0.15 s
interval deposits `0.45 * intervalsElapsed` into the nest-signal grid —
so a freshly spawned ant emits nest signals for its first 6 simulated
seconds although it has never delivered food. -/
theorem C10_fresh_ant_nest_signal (rng : ℕ → ℝ) (k id : ℕ) (position : Vec2)
    (spread jitter : ℝ) :
    (createAnt rng k id position spread jitter).nestSignalTimer
      = NEST_SIGNAL_DURATION ∧
    NEST_SIGNAL_DURATION = 6 ∧
    (createAnt rng k id position spread jitter).carryingFood = false ∧
    (∀ (ants : List Ant) (nest : Vec2) (target : ℕ) (sp ji : ℝ) (a : Ant),
      a ∈ updateAntPopulation rng k ants nest target sp ji →
      a ∈ ants ∨
        (a.nestSignalTimer = NEST_SIGNAL_DURATION ∧ a.carryingFood = false)) ∧
    (∀ (a : Ant) (g : GridR) (delta : ℝ),
      0 < a.nestSignalTimer → a.stalledTime < 0.3 →
      NEST_SIGNAL_DEPOSIT_INTERVAL ≤ a.nestSignalAccumulator + delta →
      (nestSignalStage a g delta).2 = markNestSignal g a.position
        (NEST_SIGNAL_STRENGTH *
          ((⌊(a.nestSignalAccumulator + delta) / NEST_SIGNAL_DEPOSIT_INTERVAL⌋
            : ℤ) : ℝ))) := by
  refine ⟨rfl, rfl, rfl, ?_, ?_⟩
  · intro ants nest target sp ji a ha
    unfold updateAntPopulation at ha
    dsimp only at ha
    split at ha
    · exact Or.inl ha
    · split at ha
      · rcases List.mem_append.1 ha with hleft | hnew
        · exact Or.inl hleft
        · exact Or.inr (spawnLoop_timer rng nest sp ji ants.length _ k 0 a hnew)
      · exact Or.inl (List.take_subset target ants ha)
  · intro a g delta h1 h2 h3
    unfold nestSignalStage
    rw [if_pos h1]
    dsimp only
    rw [if_pos h2, if_pos h3]

/-- Witness for C10: the component statements evaluated at a concrete fresh
ant and a concrete emitting ant crossing the interval boundary. -/
theorem C10_fresh_ant_nest_signal_witness :
    (createAnt rngZero 0 0 ⟨60, 40⟩ 1 1).nestSignalTimer = 6 ∧
    (0 < signalAnt.nestSignalTimer ∧ signalAnt.stalledTime < 0.3 ∧
      NEST_SIGNAL_DEPOSIT_INTERVAL ≤ signalAnt.nestSignalAccumulator + 0.05) ∧
    (nestSignalStage signalAnt zerosGridR 0.05).2 =
      markNestSignal zerosGridR signalAnt.position
        (NEST_SIGNAL_STRENGTH *
          ((⌊(signalAnt.nestSignalAccumulator + 0.05) /
            NEST_SIGNAL_DEPOSIT_INTERVAL⌋ : ℤ) : ℝ)) := by
  obtain ⟨h1, h2, _, _, h5⟩ := C10_fresh_ant_nest_signal rngZero 0 0
    (⟨60, 40⟩ : Vec2) 1 1
  have e1 : 0 < signalAnt.nestSignalTimer := by
    norm_num [signalAnt, pickupAnt]
  have e2 : signalAnt.stalledTime < 0.3 := by
    norm_num [signalAnt, pickupAnt]
  have e3 : NEST_SIGNAL_DEPOSIT_INTERVAL ≤ signalAnt.nestSignalAccumulator + 0.05 := by
    norm_num [signalAnt, pickupAnt, NEST_SIGNAL_DEPOSIT_INTERVAL]
  exact ⟨h2 ▸ h1, ⟨e1, e2, e3⟩, h5 signalAnt zerosGridR 0.05 e1 e2 e3⟩

end SpawnTheorems

section PathIntegrationTheorems

open Real

lemma maxPathLength_eq : max WORLD_WIDTH WORLD_HEIGHT * 1.5 = 180 := by
  rw [show WORLD_WIDTH = (120:ℝ) from rfl, show WORLD_HEIGHT = (80:ℝ) from rfl,
    max_eq_left (by norm_num)]
  norm_num

lemma hypot_scale (x y s : ℝ) (hs : 0 ≤ s) : hypot (x * s) (y * s) = hypot x y * s := by
  unfold hypot
  rw [show x * s * (x * s) + y * s * (y * s) = (x * x + y * y) * (s * s) by ring,
    Real.sqrt_mul (add_nonneg (mul_self_nonneg x) (mul_self_nonneg y)),
    Real.sqrt_mul_self hs]

lemma hypot_le_c {x y c : ℝ} (hc : 0 ≤ c) (h : x * x + y * y ≤ c * c) :
    hypot x y ≤ c := by
  unfold hypot
  calc Real.sqrt (x * x + y * y) ≤ Real.sqrt (c * c) := Real.sqrt_le_sqrt h
  _ = c := Real.sqrt_mul_self hc

lemma clampToWorld_mem (p : Vec2) :
    0 ≤ (clampToWorld p).x ∧ (clampToWorld p).x ≤ WORLD_WIDTH ∧
    0 ≤ (clampToWorld p).y ∧ (clampToWorld p).y ≤ WORLD_HEIGHT := by
  unfold clampToWorld
  exact ⟨le_max_left _ _,
    max_le (by norm_num [WORLD_WIDTH]) (min_le_left _ _),
    le_max_left _ _,
    max_le (by norm_num [WORLD_HEIGHT]) (min_le_left _ _)⟩

lemma moveStage_pi_bound (rng : ℕ → ℝ) (k : ℕ) (a : Ant)
    (settings : SimulationSettings) (delta : ℝ) (nest : Vec2) :
    hypot (moveStage rng k a settings delta nest).1.pathIntegration.x
      (moveStage rng k a settings delta nest).1.pathIntegration.y
      ≤ max WORLD_WIDTH WORLD_HEIGHT * 1.5 := by
  unfold moveStage
  dsimp only
  split
  · rename_i hlt
    rw [hypot_scale _ _ _ (by
      refine div_nonneg (by rw [maxPathLength_eq]; norm_num) ?_
      refine le_trans ?_ (le_of_lt hlt)
      rw [maxPathLength_eq]
      norm_num)]
    rw [mul_comm, div_mul_cancel₀]
    intro hzero
    rw [hzero, maxPathLength_eq] at hlt
    norm_num at hlt
  · rename_i hle
    exact not_lt.1 hle

lemma delivery_pi_bound (q nestPosition : Vec2)
    (hn : nestPosition = (⟨WORLD_WIDTH / 2, WORLD_HEIGHT / 2⟩ : Vec2)) :
    hypot ((clampToWorld q).x - nestPosition.x) ((clampToWorld q).y - nestPosition.y)
      ≤ max WORLD_WIDTH WORLD_HEIGHT * 1.5 := by
  obtain ⟨hx0, hx1, hy0, hy1⟩ := clampToWorld_mem q
  rw [hn, maxPathLength_eq]
  dsimp only
  rw [show WORLD_WIDTH = (120:ℝ) from rfl] at hx1 ⊢
  rw [show WORLD_HEIGHT = (80:ℝ) from rfl] at hy1 ⊢
  refine hypot_le_c (by norm_num) ?_
  nlinarith [hx0, hx1, hy0, hy1]

lemma stallStage_pi (rng : ℕ → ℝ) (k : ℕ) (a : Ant) (moved delta : ℝ)
    (nest : Vec2) :
    (stallStage rng k a moved delta nest).1.pathIntegration = a.pathIntegration := by
  unfold stallStage
  dsimp only
  split
  · split
    · rfl
    · rfl
  · rfl

lemma depositStage_pi (a : Ant) (home food : GridR)
    (settings : SimulationSettings) (delta : ℝ) :
    (depositStage a home food settings delta).1.pathIntegration
      = a.pathIntegration := by
  unfold depositStage
  dsimp only
  split
  · split
    · split
      · rfl
      · rfl
    · rfl
  · rfl

lemma nestSignalStage_pi (a : Ant) (g : GridR) (delta : ℝ) :
    (nestSignalStage a g delta).1.pathIntegration = a.pathIntegration := by
  unfold nestSignalStage
  dsimp only
  split
  · split
    · split
      · rfl
      · rfl
    · rfl
  · rfl

lemma transitionStage_pi (rng : ℕ → ℝ) (k : ℕ) (a : Ant)
    (sources : List FoodSource) (grid : GridR) (settings : SimulationSettings)
    (nest : Nest) (nestPosition : Vec2) (delivered : ℕ)
    (hn : nestPosition = (⟨WORLD_WIDTH / 2, WORLD_HEIGHT / 2⟩ : Vec2))
    (hr : nest.radius = NEST_RADIUS)
    (hprev : hypot a.pathIntegration.x a.pathIntegration.y
      ≤ max WORLD_WIDTH WORLD_HEIGHT * 1.5) :
    hypot (transitionStage rng k a sources grid settings nest nestPosition
        delivered).1.pathIntegration.x
      (transitionStage rng k a sources grid settings nest nestPosition
        delivered).1.pathIntegration.y
      ≤ max WORLD_WIDTH WORLD_HEIGHT * 1.5 := by
  have hreset : ∀ hq : distance a.position nestPosition ≤ nest.radius,
      hypot (a.position.x - nestPosition.x) (a.position.y - nestPosition.y)
        ≤ max WORLD_WIDTH WORLD_HEIGHT * 1.5 := by
    intro hq
    have heq : hypot (a.position.x - nestPosition.x) (a.position.y - nestPosition.y)
        = distance a.position nestPosition := rfl
    rw [heq, maxPathLength_eq]
    rw [hr] at hq
    refine le_trans hq ?_
    rw [show NEST_RADIUS = (4:ℝ) from rfl]
    norm_num
  unfold transitionStage
  dsimp only
  split
  · split
    · exact delivery_pi_bound _ _ hn
    · exact hprev
  · by_cases hd : distance a.position nestPosition ≤ nest.radius
    · rw [if_pos hd]
      split
      · exact hreset hd
      · exact hreset hd
    · rw [if_neg hd]
      split
      · exact hprev
      · exact hprev

/-- C8: at the end of every per-agent update — in particular after the
path-integration rescaling and after the resets performed at the nest and on
delivery — the magnitude of the ant's pathIntegration vector never exceeds
1.5 times the larger world dimension (the nest sits at the world center with
radius `NEST_RADIUS`, as every simulation run constructs it). -/
theorem C8_path_integration_bound (rng : ℕ → ℝ) (k : ℕ) (ant : Ant)
    (state : SimulationState) (settings : SimulationSettings) (delta : ℝ)
    (nestPosition : Vec2)
    (hnest : nestPosition = (⟨WORLD_WIDTH / 2, WORLD_HEIGHT / 2⟩ : Vec2))
    (hradius : state.nest.radius = NEST_RADIUS) :
    hypot (updateAnt rng k ant state settings delta
        nestPosition).ant.pathIntegration.x
      (updateAnt rng k ant state settings delta
        nestPosition).ant.pathIntegration.y
      ≤ max WORLD_WIDTH WORLD_HEIGHT * 1.5 := by
  unfold updateAnt
  dsimp only
  refine transitionStage_pi _ _ _ _ _ _ _ _ _ hnest hradius ?_
  rw [nestSignalStage_pi, depositStage_pi, stallStage_pi]
  exact moveStage_pi_bound _ _ _ _ _ _

/-- Witness for C8 at a concrete ant and state. -/
theorem C8_path_integration_bound_witness :
    ((⟨60, 40⟩ : Vec2) = (⟨WORLD_WIDTH / 2, WORLD_HEIGHT / 2⟩ : Vec2) ∧
      deliveryState.nest.radius = NEST_RADIUS) ∧
    hypot (updateAnt rngZero 0 pickupAnt deliveryState exampleSettings 0.05
        ⟨60, 40⟩).ant.pathIntegration.x
      (updateAnt rngZero 0 pickupAnt deliveryState exampleSettings 0.05
        ⟨60, 40⟩).ant.pathIntegration.y
      ≤ max WORLD_WIDTH WORLD_HEIGHT * 1.5 := by
  have h1 : (⟨60, 40⟩ : Vec2) = (⟨WORLD_WIDTH / 2, WORLD_HEIGHT / 2⟩ : Vec2) := by
    norm_num [WORLD_WIDTH, WORLD_HEIGHT]
  have h2 : deliveryState.nest.radius = NEST_RADIUS := rfl
  exact ⟨⟨h1, h2⟩, C8_path_integration_bound rngZero 0 pickupAnt deliveryState
    exampleSettings 0.05 ⟨60, 40⟩ h1 h2⟩

end PathIntegrationTheorems

section DirectionTheorems

open Real

lemma twoPi_pos : (0:ℝ) < π * 2 := by positivity

lemma jsRem_nonneg_lt {x t : ℝ} (ht : 0 < t) (hx : 0 ≤ x / t) :
    0 ≤ jsRem x t ∧ jsRem x t < t := by
  unfold jsRem
  rw [if_pos hx]
  have h1 : t * Int.fract (x / t) = x - t * ⌊x / t⌋ := by
    rw [Int.fract, mul_sub, mul_comm t (x / t), div_mul_cancel₀ x (ne_of_gt ht)]
  rw [← h1]
  constructor
  · exact mul_nonneg (le_of_lt ht) (Int.fract_nonneg _)
  · calc t * Int.fract (x / t) < t * 1 :=
        mul_lt_mul_of_pos_left (Int.fract_lt_one _) ht
    _ = t := mul_one t

lemma jsRem_neg {x t : ℝ} (ht : 0 < t) (hx : x / t < 0) :
    -t < jsRem x t ∧ jsRem x t ≤ 0 := by
  unfold jsRem
  rw [if_neg (not_le.2 hx)]
  have h1 : x - t * ⌈x / t⌉ = t * (x / t - ⌈x / t⌉) := by
    rw [mul_sub, mul_comm t (x / t), div_mul_cancel₀ x (ne_of_gt ht)]
  rw [h1]
  have hc1 : x / t - ⌈x / t⌉ ≤ 0 := sub_nonpos.2 (Int.le_ceil _)
  have hc2 : (-1:ℝ) < x / t - ⌈x / t⌉ := by
    have := Int.ceil_lt_add_one (x / t)
    linarith
  constructor
  · calc -t = t * (-1) := by ring
    _ < t * (x / t - ⌈x / t⌉) := mul_lt_mul_of_pos_left hc2 ht
  · have := mul_le_mul_of_nonneg_left hc1 (le_of_lt ht)
    simpa using this

lemma wrapAngle_mem (a : ℝ) : 0 ≤ wrapAngle a ∧ wrapAngle a < π * 2 := by
  unfold wrapAngle
  dsimp only
  have ht := twoPi_pos
  have hfirst : -(π * 2) < jsRem a (π * 2) ∧ jsRem a (π * 2) < π * 2 := by
    rcases le_or_lt 0 (a / (π * 2)) with hq | hq
    · have h := jsRem_nonneg_lt ht hq
      exact ⟨lt_of_lt_of_le (by linarith) h.1, h.2⟩
    · have h := jsRem_neg ht hq
      exact ⟨h.1, lt_of_le_of_lt h.2 ht⟩
  have hy : 0 ≤ (jsRem a (π * 2) + π * 2) / (π * 2) :=
    div_nonneg (by linarith [hfirst.1]) (le_of_lt ht)
  exact jsRem_nonneg_lt ht hy

lemma normDown_eq_self {a : ℝ} (h : a ≤ π) : normDown a = a := by
  rw [normDown]
  exact if_neg (not_lt.2 h)

lemma normUp_eq_self {a : ℝ} (h : -π ≤ a) : normUp a = a := by
  rw [normUp]
  exact if_neg (not_lt.2 h)

lemma normalizeAngle_eq_self {a : ℝ} (h1 : -π ≤ a) (h2 : a ≤ π) :
    normalizeAngle a = a := by
  unfold normalizeAngle
  rw [normDown_eq_self h2, normUp_eq_self h1]

lemma clamp_bias_mem (bias : ℝ) : 0 ≤ min 1 (max 0 bias) ∧ min 1 (max 0 bias) ≤ 1 :=
  ⟨le_min (by norm_num) (le_max_left _ _), min_le_left _ _⟩

lemma strongestSample_mem {l : List (ℝ × ℝ)} {s : ℝ × ℝ}
    (h : strongestSample l = some s) : s ∈ l := by
  cases l with
  | nil => cases h
  | cons a rest =>
      unfold strongestSample at h
      injection h with h
      subst h
      have : ∀ (r : List (ℝ × ℝ)) (a : ℝ × ℝ),
          r.foldl (fun best t => if best.2 < t.2 then t else best) a ∈ a :: r := by
        intro r
        induction r with
        | nil => intro a; exact List.mem_singleton.2 rfl
        | cons b t ih =>
            intro a
            have hstep := ih (if a.2 < b.2 then b else a)
            rcases List.mem_cons.1 hstep with hres | hres
            · rw [List.foldl_cons]
              rcases lt_or_le a.2 b.2 with hab | hab
              · rw [hres]
                rw [if_pos hab]
                exact List.mem_cons_of_mem a (List.mem_cons_self b t)
              · rw [hres]
                rw [if_neg (not_lt.2 hab)]
                exact List.mem_cons_self a (b :: t)
            · rw [List.foldl_cons]
              exact List.mem_cons_of_mem a (List.mem_cons_of_mem b hres)
      exact this rest a

lemma sPD_range (a : Ant) (grid : GridR) (settings : SimulationSettings)
    (h0 : 0 ≤ a.direction) (h1 : a.direction < π * 2) (d : ℝ)
    (hd : samplePheromoneDirection a grid settings none = some d) :
    -(π / 3) ≤ d ∧ d < π * 2 + π / 3 := by
  have hpi := pi_pos
  unfold samplePheromoneDirection at hd
  simp only [Option.none_bind, Option.getD_none] at hd
  rcases hs : strongestSample ([-(π / 3), 0, π / 3].filterMap (fun offset =>
      if 0 < sampleGridValue grid
          (⟨a.position.x + Real.cos (a.direction + offset) * 4,
            a.position.y + Real.sin (a.direction + offset) * 4⟩ : Vec2) then
        some (a.direction + offset,
          sampleGridValue grid
            (⟨a.position.x + Real.cos (a.direction + offset) * 4,
              a.position.y + Real.sin (a.direction + offset) * 4⟩ : Vec2))
      else none)) with _ | s
  · rw [hs] at hd
    cases hd
  · rw [hs] at hd
    injection hd with hd
    have hmem := strongestSample_mem hs
    obtain ⟨offset, hoff, hg⟩ := List.mem_filterMap.1 hmem
    have hs1 : s.1 = a.direction + offset := by
      by_cases hint : 0 < sampleGridValue grid
          (⟨a.position.x + Real.cos (a.direction + offset) * 4,
            a.position.y + Real.sin (a.direction + offset) * 4⟩ : Vec2)
      · rw [if_pos hint] at hg
        injection hg with hg
        rw [← hg]
      · rw [if_neg hint] at hg
        cases hg
    have hbias := clamp_bias_mem (max 0 settings.pheromoneInfluence * 1 /
      (max 0 settings.pheromoneInfluence * 1 + 1))
    have hdval : d = a.direction +
        normalizeAngle offset * min 1 (max 0 (max 0 settings.pheromoneInfluence * 1 /
          (max 0 settings.pheromoneInfluence * 1 + 1))) := by
      rw [← hd]
      unfold interpolateAngle
      rw [hs1, add_sub_cancel_left]
    have hoffmem : offset = -(π / 3) ∨ offset = 0 ∨ offset = π / 3 := by
      rcases List.mem_cons.1 hoff with h | h
      · exact Or.inl h
      rcases List.mem_cons.1 h with h | h
      · exact Or.inr (Or.inl h)
      rcases List.mem_cons.1 h with h | h
      · exact Or.inr (Or.inr h)
      · cases h
    have hnorm : normalizeAngle offset = offset := by
      rcases hoffmem with rfl | rfl | rfl
      · exact normalizeAngle_eq_self (by linarith) (by linarith)
      · exact normalizeAngle_eq_self (by linarith) (by linarith)
      · exact normalizeAngle_eq_self (by linarith) (by linarith)
    rw [hnorm] at hdval
    set b := min 1 (max 0 (max 0 settings.pheromoneInfluence * 1 /
      (max 0 settings.pheromoneInfluence * 1 + 1))) with hb
    have hprod : -(π / 3) ≤ offset * b ∧ offset * b ≤ π / 3 := by
      rcases hoffmem with rfl | rfl | rfl
      · constructor
        · nlinarith [hbias.1, hbias.2]
        · nlinarith [hbias.1, hbias.2]
      · constructor
        · nlinarith
        · nlinarith
      · constructor
        · nlinarith [hbias.1, hbias.2]
        · nlinarith [hbias.1, hbias.2]
    rw [hdval]
    constructor
    · linarith [hprod.1]
    · linarith [hprod.2]

lemma advanceLoop_dir (rng : ℕ → ℝ) (origin preferred : Vec2) (m : ℝ) :
    ∀ (fuel k : ℕ) (dir : ℝ) (next : Vec2), 0 ≤ dir → dir < π * 2 →
      0 ≤ (advanceLoop rng origin preferred m k fuel dir next).1 ∧
      (advanceLoop rng origin preferred m k fuel dir next).1 < π * 2 := by
  intro fuel
  induction fuel with
  | zero =>
      intro k dir next h0 h1
      exact ⟨h0, h1⟩
  | succ n ih =>
      intro k dir next h0 h1
      simp only [advanceLoop]
      split
      · exact ⟨h0, h1⟩
      · exact ih _ _ _ (wrapAngle_mem _).1 (wrapAngle_mem _).2

lemma advanceAnt_dir (rng : ℕ → ℝ) (k : ℕ) (a : Ant) (m : ℝ) (nest : Vec2)
    (h0 : 0 ≤ a.direction) (h1 : a.direction < π * 2) :
    0 ≤ (advanceAntWithinWorld rng k a m nest).1.direction ∧
    (advanceAntWithinWorld rng k a m nest).1.direction < π * 2 := by
  unfold advanceAntWithinWorld
  dsimp only
  split
  · exact ⟨h0, h1⟩
  · exact advanceLoop_dir rng _ _ m 6 k a.direction _ h0 h1

lemma moveStage_dir (rng : ℕ → ℝ) (k : ℕ) (a : Ant)
    (settings : SimulationSettings) (delta : ℝ) (nest : Vec2)
    (h0 : 0 ≤ a.direction) (h1 : a.direction < π * 2) :
    0 ≤ (moveStage rng k a settings delta nest).1.direction ∧
    (moveStage rng k a settings delta nest).1.direction < π * 2 :=
  advanceAnt_dir rng k a (settings.antSpeed * delta) nest h0 h1

lemma stallStage_dir (rng : ℕ → ℝ) (k : ℕ) (a : Ant) (moved delta : ℝ)
    (nest : Vec2) (h0 : 0 ≤ a.direction) (h1 : a.direction < π * 2) :
    0 ≤ (stallStage rng k a moved delta nest).1.direction ∧
    (stallStage rng k a moved delta nest).1.direction < π * 2 := by
  unfold stallStage
  dsimp only
  split
  · split
    · exact wrapAngle_mem _
    · exact ⟨h0, h1⟩
  · exact ⟨h0, h1⟩

lemma depositStage_dir (a : Ant) (home food : GridR)
    (settings : SimulationSettings) (delta : ℝ) :
    (depositStage a home food settings delta).1.direction = a.direction := by
  unfold depositStage
  dsimp only
  split
  · split
    · split
      · rfl
      · rfl
    · rfl
  · rfl

lemma nestSignalStage_dir (a : Ant) (g : GridR) (delta : ℝ) :
    (nestSignalStage a g delta).1.direction = a.direction := by
  unfold nestSignalStage
  dsimp only
  split
  · split
    · split
      · rfl
      · rfl
    · rfl
  · rfl

lemma transitionStage_dir (rng : ℕ → ℝ) (k : ℕ) (a : Ant)
    (sources : List FoodSource) (grid : GridR) (settings : SimulationSettings)
    (nest : Nest) (nestPosition : Vec2) (delivered : ℕ)
    (h0 : 0 ≤ a.direction) (h1 : a.direction < π * 2) :
    (0 ≤ (transitionStage rng k a sources grid settings nest nestPosition
        delivered).1.direction ∧
      (transitionStage rng k a sources grid settings nest nestPosition
        delivered).1.direction < π * 2) ∨
    ((transitionStage rng k a sources grid settings nest nestPosition
        delivered).2.2.1 = delivered + 1 ∧
      -(π / 3) ≤ (transitionStage rng k a sources grid settings nest nestPosition
        delivered).1.direction ∧
      (transitionStage rng k a sources grid settings nest nestPosition
        delivered).1.direction < π * 2 + π / 3) := by
  unfold transitionStage
  dsimp only
  split
  · split
    · split
      · rename_i d hd
        right
        refine ⟨rfl, ?_⟩
        exact sPD_range _ grid settings h0 h1 d hd
      · left
        exact wrapAngle_mem _
    · left
      exact ⟨h0, h1⟩
  · by_cases hd : distance a.position nestPosition ≤ nest.radius
    · rw [if_pos hd]
      split
      · left
        exact ⟨h0, h1⟩
      · left
        exact ⟨h0, h1⟩
    · rw [if_neg hd]
      split
      · left
        exact ⟨h0, h1⟩
      · left
        exact ⟨h0, h1⟩

/-- C5 (amended): after every per-agent update the ant's direction lies in
[0, 2π), except when the step delivers food at the nest and re-orients along
a sensed outbound food-trail direction: that assignment skips the wrap and
can leave [0, 2π), but stays within [-π/3, 2π + π/3). -/
theorem C5_direction_range (rng : ℕ → ℝ) (k : ℕ) (ant : Ant)
    (state : SimulationState) (settings : SimulationSettings) (delta : ℝ)
    (nestPosition : Vec2) :
    (0 ≤ (updateAnt rng k ant state settings delta nestPosition).ant.direction ∧
      (updateAnt rng k ant state settings delta nestPosition).ant.direction
        < π * 2) ∨
    ((updateAnt rng k ant state settings delta nestPosition).deliveredFood
        = state.stats.deliveredFood + 1 ∧
      -(π / 3) ≤ (updateAnt rng k ant state settings delta
        nestPosition).ant.direction ∧
      (updateAnt rng k ant state settings delta nestPosition).ant.direction
        < π * 2 + π / 3) := by
  unfold updateAnt
  dsimp only
  have hsense : 0 ≤ (senseDecideStage rng k (carryStage ant delta)
        state.homePheromones state.foodPheromones state.nestSignals settings).1 ∧
      (senseDecideStage rng k (carryStage ant delta) state.homePheromones
        state.foodPheromones state.nestSignals settings).1 < π * 2 :=
    wrapAngle_mem _
  have hmove := moveStage_dir rng
    (senseDecideStage rng k (carryStage ant delta) state.homePheromones
      state.foodPheromones state.nestSignals settings).2
    { carryStage ant delta with
      direction := (senseDecideStage rng k (carryStage ant delta)
        state.homePheromones state.foodPheromones state.nestSignals settings).1 }
    settings delta nestPosition hsense.1 hsense.2
  have hstall := stallStage_dir rng
    (moveStage rng (senseDecideStage rng k (carryStage ant delta)
        state.homePheromones state.foodPheromones state.nestSignals settings).2
      { carryStage ant delta with
        direction := (senseDecideStage rng k (carryStage ant delta)
          state.homePheromones state.foodPheromones state.nestSignals settings).1 }
      settings delta nestPosition).2.2
    (moveStage rng (senseDecideStage rng k (carryStage ant delta)
        state.homePheromones state.foodPheromones state.nestSignals settings).2
      { carryStage ant delta with
        direction := (senseDecideStage rng k (carryStage ant delta)
          state.homePheromones state.foodPheromones state.nestSignals settings).1 }
      settings delta nestPosition).1
    (moveStage rng (senseDecideStage rng k (carryStage ant delta)
        state.homePheromones state.foodPheromones state.nestSignals settings).2
      { carryStage ant delta with
        direction := (senseDecideStage rng k (carryStage ant delta)
          state.homePheromones state.foodPheromones state.nestSignals settings).1 }
      settings delta nestPosition).2.1
    delta nestPosition hmove.1 hmove.2
  have h6a : 0 ≤ (nestSignalStage (depositStage (stallStage rng
      (moveStage rng (senseDecideStage rng k (carryStage ant delta)
          state.homePheromones state.foodPheromones state.nestSignals settings).2
        { carryStage ant delta with
          direction := (senseDecideStage rng k (carryStage ant delta)
            state.homePheromones state.foodPheromones state.nestSignals settings).1 }
        settings delta nestPosition).2.2
      (moveStage rng (senseDecideStage rng k (carryStage ant delta)
          state.homePheromones state.foodPheromones state.nestSignals settings).2
        { carryStage ant delta with
          direction := (senseDecideStage rng k (carryStage ant delta)
            state.homePheromones state.foodPheromones state.nestSignals settings).1 }
        settings delta nestPosition).1
      (moveStage rng (senseDecideStage rng k (carryStage ant delta)
          state.homePheromones state.foodPheromones state.nestSignals settings).2
        { carryStage ant delta with
          direction := (senseDecideStage rng k (carryStage ant delta)
            state.homePheromones state.foodPheromones state.nestSignals settings).1 }
        settings delta nestPosition).2.1
      delta nestPosition).1
      state.homePheromones state.foodPheromones settings delta).1
      state.nestSignals delta).1.direction := by
    rw [nestSignalStage_dir, depositStage_dir]
    exact hstall.1
  have h6b : (nestSignalStage (depositStage (stallStage rng
      (moveStage rng (senseDecideStage rng k (carryStage ant delta)
          state.homePheromones state.foodPheromones state.nestSignals settings).2
        { carryStage ant delta with
          direction := (senseDecideStage rng k (carryStage ant delta)
            state.homePheromones state.foodPheromones state.nestSignals settings).1 }
        settings delta nestPosition).2.2
      (moveStage rng (senseDecideStage rng k (carryStage ant delta)
          state.homePheromones state.foodPheromones state.nestSignals settings).2
        { carryStage ant delta with
          direction := (senseDecideStage rng k (carryStage ant delta)
            state.homePheromones state.foodPheromones state.nestSignals settings).1 }
        settings delta nestPosition).1
      (moveStage rng (senseDecideStage rng k (carryStage ant delta)
          state.homePheromones state.foodPheromones state.nestSignals settings).2
        { carryStage ant delta with
          direction := (senseDecideStage rng k (carryStage ant delta)
            state.homePheromones state.foodPheromones state.nestSignals settings).1 }
        settings delta nestPosition).2.1
      delta nestPosition).1
      state.homePheromones state.foodPheromones settings delta).1
      state.nestSignals delta).1.direction < π * 2 := by
    rw [nestSignalStage_dir, depositStage_dir]
    exact hstall.2
  exact transitionStage_dir rng _ _ state.foodSources _ settings state.nest
    nestPosition state.stats.deliveredFood h6a h6b

lemma getD_replicate_zero (n : ℕ) : (List.replicate 9600 (0:ℝ)).getD n 0 = 0 := by
  rcases lt_or_le n (List.replicate 9600 (0:ℝ)).length with hl | hl
  · rw [List.getD_eq_getElem _ _ hl, List.getElem_replicate]
  · rw [List.getD_eq_default _ _ hl]

lemma sampleGridValue_replicate (c x y : ℝ) (hx0 : 0 ≤ x) (hx1 : x < 120)
    (hy0 : 0 ≤ y) (hy1 : y < 80) :
    sampleGridValue (⟨120, 80, 1, List.replicate 9600 c⟩ : GridR) ⟨x, y⟩ = c := by
  unfold sampleGridValue sampleGridCell
  dsimp only
  rw [div_one, div_one]
  have hcol0 : (0:ℤ) ≤ ⌊x⌋ := Int.floor_nonneg.2 hx0
  have hcol1 : ⌊x⌋ < 120 := Int.floor_lt.2 (by exact_mod_cast hx1)
  have hrow0 : (0:ℤ) ≤ ⌊y⌋ := Int.floor_nonneg.2 hy0
  have hrow1 : ⌊y⌋ < 80 := Int.floor_lt.2 (by exact_mod_cast hy1)
  have hcond : ¬ (⌊x⌋ < 0 ∨ ⌊y⌋ < 0 ∨ (120:ℤ) ≤ ⌊x⌋ ∨ (80:ℤ) ≤ ⌊y⌋) := by
    push_neg
    exact ⟨hcol0, hrow0, hcol1, hrow1⟩
  rw [if_neg hcond]
  have hpos : ¬ ((⌊y⌋ * 120 + ⌊x⌋ : ℤ), (1:ℝ)).1 < 0 := by
    dsimp only
    omega
  rw [if_neg hpos]
  have hlen : ((⌊y⌋ * 120 + ⌊x⌋ : ℤ), (1:ℝ)).1.toNat
      < (List.replicate 9600 c).length := by
    dsimp only
    rw [List.length_replicate]
    omega
  rw [List.getD_eq_getElem _ _ hlen, List.getElem_replicate]

lemma sampleGridValue_zeros (p : Vec2) : sampleGridValue zerosGridR p = 0 := by
  show sampleGridValue (⟨120, 80, 1, List.replicate 9600 0⟩ : GridR) p = 0
  unfold sampleGridValue sampleGridCell
  dsimp only
  split
  · rfl
  · split
    · rfl
    · exact getD_replicate_zero _

lemma sampleGridValue_ones {x y : ℝ} (hx0 : 0 ≤ x) (hx1 : x < 120)
    (hy0 : 0 ≤ y) (hy1 : y < 80) :
    sampleGridValue onesGridR ⟨x, y⟩ = 1 :=
  sampleGridValue_replicate 1 x y hx0 hx1 hy0 hy1

lemma carryStage_pres (a : Ant) (delta : ℝ) :
    (carryStage a delta).carryingFood = a.carryingFood ∧
    (carryStage a delta).direction = a.direction ∧
    (carryStage a delta).position = a.position ∧
    (carryStage a delta).pathIntegration = a.pathIntegration ∧
    (carryStage a delta).stalledTime = a.stalledTime ∧
    (carryStage a delta).depositAccumulator = a.depositAccumulator := by
  unfold carryStage
  dsimp only
  split
  · split
    · exact ⟨rfl, rfl, rfl, rfl, rfl, rfl⟩
    · exact ⟨rfl, rfl, rfl, rfl, rfl, rfl⟩
  · exact ⟨rfl, rfl, rfl, rfl, rfl, rfl⟩

lemma carryStage_force_of {a : Ant} (delta : ℝ) (hc : a.carryingFood = true)
    (ht : ¬ FOOD_RETURN_TIMEOUT ≤ a.carryingTime + delta) :
    (carryStage a delta).forceReturn = a.forceReturn := by
  unfold carryStage
  rw [if_pos hc, if_neg (fun h => ht h.2)]

lemma moveStage_nonpos (rng : ℕ → ℝ) (k : ℕ) (a : Ant)
    (settings : SimulationSettings) (delta : ℝ) (nest : Vec2)
    (h : settings.antSpeed * delta ≤ 0) :
    (moveStage rng k a settings delta nest).1.direction = a.direction ∧
    (moveStage rng k a settings delta nest).1.position = a.position ∧
    (moveStage rng k a settings delta nest).1.stalledTime = a.stalledTime ∧
    (moveStage rng k a settings delta nest).1.depositAccumulator
      = a.depositAccumulator ∧
    (moveStage rng k a settings delta nest).2.1 = 0 := by
  unfold moveStage advanceAntWithinWorld
  dsimp only
  rw [if_pos h]
  exact ⟨rfl, rfl, rfl, rfl, rfl⟩

lemma stallStage_pres (rng : ℕ → ℝ) (k : ℕ) (a : Ant) (moved delta : ℝ)
    (nest : Vec2) :
    (stallStage rng k a moved delta nest).1.position = a.position ∧
    (stallStage rng k a moved delta nest).1.depositAccumulator
      = a.depositAccumulator := by
  unfold stallStage
  dsimp only
  split
  · split
    · exact ⟨rfl, rfl⟩
    · exact ⟨rfl, rfl⟩
  · exact ⟨rfl, rfl⟩

lemma stallStage_stalledTime (rng : ℕ → ℝ) (k : ℕ) (a : Ant) {moved : ℝ}
    (delta : ℝ) (nest : Vec2) (h : moved < 0.025) :
    (stallStage rng k a moved delta nest).1.stalledTime
      = a.stalledTime + delta := by
  unfold stallStage
  dsimp only
  rw [if_pos h]
  split
  · rfl
  · rfl

lemma stallStage_direction (rng : ℕ → ℝ) (k : ℕ) (a : Ant) (moved delta : ℝ)
    (nest : Vec2)
    (h : ¬ (0.4 < a.stalledTime + delta ∧ isAtWorldEdge a.position)) :
    (stallStage rng k a moved delta nest).1.direction = a.direction := by
  unfold stallStage
  dsimp only
  split
  all_goals first
    | rfl
    | (rename_i hcond; exact absurd hcond h)

lemma depositStage_pos (a : Ant) (home food : GridR)
    (settings : SimulationSettings) (delta : ℝ) :
    (depositStage a home food settings delta).1.position = a.position := by
  unfold depositStage
  dsimp only
  split
  · split
    · split
      · rfl
      · rfl
    · rfl
  · rfl

lemma nestSignalStage_pos (a : Ant) (g : GridR) (delta : ℝ) :
    (nestSignalStage a g delta).1.position = a.position := by
  unfold nestSignalStage
  dsimp only
  split
  · split
    · split
      · rfl
      · rfl
    · rfl
  · rfl

lemma depositStage_grids_nodeposit {a : Ant} (home food : GridR)
    (settings : SimulationSettings) {delta : ℝ} (h1 : a.stalledTime < 0.3)
    (h2 : a.depositAccumulator + delta < 0.1) :
    (depositStage a home food settings delta).2.1 = home ∧
    (depositStage a home food settings delta).2.2 = food := by
  unfold depositStage
  rw [if_pos h1]
  dsimp only
  rw [if_neg (not_le.2 h2)]
  exact ⟨rfl, rfl⟩

lemma transition_direction_eval (rng : ℕ → ℝ) (k : ℕ) (a : Ant)
    (sources : List FoodSource) (grid : GridR) (settings : SimulationSettings)
    (nest : Nest) (nestPosition : Vec2) (delivered : ℕ) (d : ℝ)
    (hc : a.carryingFood = true)
    (hdist : distance a.position nestPosition ≤ nest.radius)
    (hout : samplePheromoneDirection
      { a with
        carryingFood := false
        carryingTime := 0
        forceReturn := false
        nestSignalTimer := NEST_SIGNAL_DURATION
        nestSignalAccumulator := 0 }
      grid settings none = some d) :
    (transitionStage rng k a sources grid settings nest nestPosition
      delivered).1.direction = d := by
  unfold transitionStage
  dsimp only
  rw [if_pos hc, if_pos hdist, hout]

lemma jsRem_zero (t : ℝ) : jsRem 0 t = 0 := by
  unfold jsRem
  rw [zero_div, if_pos (le_refl (0:ℝ)), Int.floor_zero]
  simp

lemma jsRem_self {t : ℝ} (ht : 0 < t) : jsRem t t = 0 := by
  unfold jsRem
  rw [div_self (ne_of_gt ht), if_pos (by norm_num : (0:ℝ) ≤ 1), Int.floor_one]
  simp

lemma wrapAngle_zero : wrapAngle 0 = 0 := by
  have ht := twoPi_pos
  unfold wrapAngle
  dsimp only
  rw [jsRem_zero, zero_add]
  exact jsRem_self ht

lemma hypot_zero : hypot 0 0 = 0 := by
  unfold hypot
  rw [show (0:ℝ) * 0 + 0 * 0 = 0 by norm_num, Real.sqrt_zero]

lemma probe_point_ones (θ p : ℝ) (hp0 : 0 ≤ p) (hp : p ≤ 6) :
    sampleGridValue onesGridR
      ⟨58 + Real.cos θ * p, 40 + Real.sin θ * p⟩ = 1 := by
  have hc1 := Real.neg_one_le_cos θ
  have hc2 := Real.cos_le_one θ
  have hs1 := Real.neg_one_le_sin θ
  have hs2 := Real.sin_le_one θ
  refine sampleGridValue_ones ?_ ?_ ?_ ?_
  · nlinarith
  · nlinarith
  · nlinarith
  · nlinarith

lemma sPD_zeros_eval (a : Ant) (settings : SimulationSettings) :
    samplePheromoneDirection a zerosGridR settings
      (some { probeDistance := some 5, offsets := none,
              secondaryGrid := some zerosGridR, secondaryWeight := some 0.55,
              influenceMultiplier := some 1.25 }) = none := by
  unfold samplePheromoneDirection
  simp only [Option.some_bind, Option.getD_some, Option.getD_none]
  simp only [sampleGridValue_zeros]
  rw [if_pos (by norm_num : (0:ℝ) < 0.55)]
  norm_num
  rfl

lemma sPD_ones_eval (a : Ant) (settings : SimulationSettings)
    (hdir : a.direction = 0) (hpos : a.position = (⟨58, 40⟩ : Vec2))
    (hinfl : settings.pheromoneInfluence = 1) :
    samplePheromoneDirection a onesGridR settings none = some (-(π / 6)) := by
  have hpi := pi_pos
  unfold samplePheromoneDirection
  simp only [Option.none_bind, Option.getD_none]
  simp only [hdir, hpos]
  simp only [List.filterMap_cons, List.filterMap_nil]
  rw [probe_point_ones (0 + -(π / 3)) 4 (by norm_num) (by norm_num),
    probe_point_ones (0 + 0) 4 (by norm_num) (by norm_num),
    probe_point_ones (0 + π / 3) 4 (by norm_num) (by norm_num)]
  rw [if_pos (by norm_num : (0:ℝ) < 1), if_pos (by norm_num : (0:ℝ) < 1),
    if_pos (by norm_num : (0:ℝ) < 1)]
  unfold strongestSample
  simp only [List.foldl_cons, List.foldl_nil]
  dsimp only
  rw [if_neg (lt_irrefl (1:ℝ)), if_neg (lt_irrefl (1:ℝ))]
  rw [hinfl]
  rw [max_eq_right (by norm_num : (0:ℝ) ≤ 1)]
  unfold interpolateAngle
  rw [show ((0:ℝ) + -(π / 3)) - 0 = -(π / 3) by ring]
  rw [normalizeAngle_eq_self (by linarith) (by linarith)]
  rw [show min (1:ℝ) (max 0 (1 * 1 / (1 * 1 + 1))) = 1 / 2 by norm_num]
  congr 1
  ring

lemma senseDecide_eval (k : ℕ) (a : Ant) (settings : SimulationSettings)
    (hdir : a.direction = 0) (hpos : a.position = (⟨58, 40⟩ : Vec2))
    (hpi : a.pathIntegration = (⟨0, 0⟩ : Vec2))
    (hcarry : a.carryingFood = true) (hforce : a.forceReturn = false)
    (hrand : settings.randomness = 0) :
    (senseDecideStage rngZero k a zerosGridR onesGridR zerosGridR settings).1
      = 0 := by
  have hones : sampleGridValue onesGridR (⟨58, 40⟩ : Vec2) = 1 :=
    sampleGridValue_ones (by norm_num) (by norm_num) (by norm_num) (by norm_num)
  unfold senseDecideStage
  dsimp only
  simp only [hcarry, hforce, hdir, hpos, hpi, hrand, if_true,
    Bool.false_eq_true, if_false, rngZero, neg_zero]
  rw [sPD_zeros_eval a settings]
  dsimp only
  rw [hypot_zero]
  rw [if_neg (by norm_num : ¬ ((0.001:ℝ) < 0))]
  dsimp only
  rw [hones]
  rw [if_neg (by norm_num : ¬ ((1:ℝ) ≤ 0.02))]
  norm_num [wrapAngle_zero]

/-- Counterexample to C5 as stated: a carrying ant heading 0 delivers at the
nest while the food-trail grid is saturated; the outbound re-orientation
returns the unwrapped interpolated angle `-π/6`, so the direction after the
update is negative and leaves [0, 2π). -/
theorem C5_counterexample :
    (updateAnt rngZero 0 deliveryAnt deliveryState exampleSettings (1/20)
      (⟨60, 40⟩ : Vec2)).ant.direction = -(π / 6) ∧
    ¬ (0 ≤ (updateAnt rngZero 0 deliveryAnt deliveryState exampleSettings (1/20)
      (⟨60, 40⟩ : Vec2)).ant.direction) := by
  have hpi := pi_pos
  have hmain : (updateAnt rngZero 0 deliveryAnt deliveryState exampleSettings
      (1/20) (⟨60, 40⟩ : Vec2)).ant.direction = -(π / 6) := by
    unfold updateAnt
    dsimp only
    set a1 := carryStage deliveryAnt (1/20) with ha1
    set sd := senseDecideStage rngZero 0 a1 deliveryState.homePheromones
      deliveryState.foodPheromones deliveryState.nestSignals exampleSettings
      with hsd
    set a2 : Ant := { a1 with direction := sd.1 } with ha2
    set mv := moveStage rngZero sd.2 a2 exampleSettings (1/20) (⟨60, 40⟩ : Vec2)
      with hmv
    set st := stallStage rngZero mv.2.2 mv.1 mv.2.1 (1/20) (⟨60, 40⟩ : Vec2)
      with hst
    set dp := depositStage st.1 deliveryState.homePheromones
      deliveryState.foodPheromones exampleSettings (1/20) with hdp
    set ns := nestSignalStage dp.1 deliveryState.nestSignals (1/20) with hns
    have hA0 : exampleSettings.antSpeed * (1/20) ≤ 0 := by
      norm_num [exampleSettings]
    have hnofr : ¬ FOOD_RETURN_TIMEOUT ≤ deliveryAnt.carryingTime + 1/20 := by
      norm_num [deliveryAnt, FOOD_RETURN_TIMEOUT]
    have f1 : a1.carryingFood = true := by
      rw [ha1, (carryStage_pres deliveryAnt (1/20)).1]
      rfl
    have f2 : a1.direction = 0 := by
      rw [ha1, (carryStage_pres deliveryAnt (1/20)).2.1]
      rfl
    have f3 : a1.position = (⟨58, 40⟩ : Vec2) := by
      rw [ha1, (carryStage_pres deliveryAnt (1/20)).2.2.1]
      rfl
    have f4 : a1.pathIntegration = (⟨0, 0⟩ : Vec2) := by
      rw [ha1, (carryStage_pres deliveryAnt (1/20)).2.2.2.1]
      rfl
    have f5 : a1.forceReturn = false := by
      rw [ha1, carryStage_force_of (1/20) rfl hnofr]
      rfl
    have f6 : a1.stalledTime = 0 := by
      rw [ha1, (carryStage_pres deliveryAnt (1/20)).2.2.2.2.1]
      rfl
    have f7 : a1.depositAccumulator = 0 := by
      rw [ha1, (carryStage_pres deliveryAnt (1/20)).2.2.2.2.2]
      rfl
    have g1 : sd.1 = 0 := by
      rw [hsd]
      exact senseDecide_eval 0 a1 exampleSettings f2 f3 f4 f1 f5 rfl
    have e1 : a2.direction = 0 := by
      rw [ha2]
      exact g1
    have e2 : a2.position = (⟨58, 40⟩ : Vec2) := by
      rw [ha2]
      exact f3
    have e3 : a2.carryingFood = true := by
      rw [ha2]
      exact f1
    have e4 : a2.stalledTime = 0 := by
      rw [ha2]
      exact f6
    have e5 : a2.depositAccumulator = 0 := by
      rw [ha2]
      exact f7
    have hmnp := moveStage_nonpos rngZero sd.2 a2 exampleSettings (1/20)
      (⟨60, 40⟩ : Vec2) hA0
    have m1 : mv.1.direction = 0 := by
      rw [hmv, hmnp.1]
      exact e1
    have m2 : mv.1.position = (⟨58, 40⟩ : Vec2) := by
      rw [hmv, hmnp.2.1]
      exact e2
    have m3 : mv.1.stalledTime = 0 := by
      rw [hmv, hmnp.2.2.1]
      exact e4
    have m4 : mv.1.depositAccumulator = 0 := by
      rw [hmv, hmnp.2.2.2.1]
      exact e5
    have m5 : mv.2.1 = 0 := by
      rw [hmv]
      exact hmnp.2.2.2.2
    have m6 : mv.1.carryingFood = true := by
      rw [hmv, (moveStage_flags rngZero sd.2 a2 exampleSettings (1/20)
        (⟨60, 40⟩ : Vec2)).1]
      exact e3
    have hmoved : mv.2.1 < 0.025 := by
      rw [m5]
      norm_num
    have hnoesc : ¬ (0.4 < mv.1.stalledTime + 1/20 ∧ isAtWorldEdge mv.1.position) := by
      intro hx
      rw [m3] at hx
      have := hx.1
      norm_num at this
    have s1 : st.1.stalledTime = mv.1.stalledTime + 1/20 := by
      rw [hst]
      exact stallStage_stalledTime rngZero mv.2.2 mv.1 (1/20) (⟨60, 40⟩ : Vec2)
        hmoved
    have s2 : st.1.direction = 0 := by
      rw [hst, stallStage_direction rngZero mv.2.2 mv.1 mv.2.1 (1/20)
        (⟨60, 40⟩ : Vec2) hnoesc]
      exact m1
    have s3 : st.1.position = (⟨58, 40⟩ : Vec2) := by
      rw [hst, (stallStage_pres rngZero mv.2.2 mv.1 mv.2.1 (1/20)
        (⟨60, 40⟩ : Vec2)).1]
      exact m2
    have s4 : st.1.depositAccumulator = 0 := by
      rw [hst, (stallStage_pres rngZero mv.2.2 mv.1 mv.2.1 (1/20)
        (⟨60, 40⟩ : Vec2)).2]
      exact m4
    have s5 : st.1.carryingFood = true := by
      rw [hst, (stallStage_flags rngZero mv.2.2 mv.1 mv.2.1 (1/20)
        (⟨60, 40⟩ : Vec2)).1]
      exact m6
    have hd1 : st.1.stalledTime < 0.3 := by
      rw [s1, m3]
      norm_num
    have hd2 : st.1.depositAccumulator + 1/20 < 0.1 := by
      rw [s4]
      norm_num
    have dgrids := depositStage_grids_nodeposit (a := st.1)
      deliveryState.homePheromones deliveryState.foodPheromones exampleSettings
      hd1 hd2
    have d1 : dp.2.2 = deliveryState.foodPheromones := by
      rw [hdp]
      exact dgrids.2
    have d2 : dp.1.direction = 0 := by
      rw [hdp, depositStage_dir st.1 deliveryState.homePheromones
        deliveryState.foodPheromones exampleSettings (1/20)]
      exact s2
    have d3 : dp.1.position = (⟨58, 40⟩ : Vec2) := by
      rw [hdp, depositStage_pos st.1 deliveryState.homePheromones
        deliveryState.foodPheromones exampleSettings (1/20)]
      exact s3
    have d4 : dp.1.carryingFood = true := by
      rw [hdp, (depositStage_flags st.1 deliveryState.homePheromones
        deliveryState.foodPheromones exampleSettings (1/20)).1]
      exact s5
    have n1 : ns.1.direction = 0 := by
      rw [hns, nestSignalStage_dir dp.1 deliveryState.nestSignals (1/20)]
      exact d2
    have n2 : ns.1.position = (⟨58, 40⟩ : Vec2) := by
      rw [hns, nestSignalStage_pos dp.1 deliveryState.nestSignals (1/20)]
      exact d3
    have n3 : ns.1.carryingFood = true := by
      rw [hns, (nestSignalStage_flags dp.1 deliveryState.nestSignals (1/20)).1]
      exact d4
    have hdist : distance ns.1.position (⟨60, 40⟩ : Vec2)
        ≤ deliveryState.nest.radius := by
      rw [n2]
      show distance (⟨58, 40⟩ : Vec2) (⟨60, 40⟩ : Vec2) ≤ (4:ℝ)
      unfold distance
      dsimp only
      rw [show ((58:ℝ) - 60) * (58 - 60) + (40 - 40) * (40 - 40) = 2 * 2 by
        norm_num]
      rw [Real.sqrt_mul_self (by norm_num : (0:ℝ) ≤ 2)]
      norm_num
    have hout : samplePheromoneDirection
        { ns.1 with
          carryingFood := false
          carryingTime := 0
          forceReturn := false
          nestSignalTimer := NEST_SIGNAL_DURATION
          nestSignalAccumulator := 0 }
        dp.2.2 exampleSettings none = some (-(π / 6)) := by
      rw [d1]
      exact sPD_ones_eval _ exampleSettings n1 n2 rfl
    exact transition_direction_eval rngZero st.2 ns.1 deliveryState.foodSources
      dp.2.2 exampleSettings deliveryState.nest (⟨60, 40⟩ : Vec2)
      deliveryState.stats.deliveredFood (-(π / 6)) n3 hdist hout
  refine ⟨hmain, ?_⟩
  rw [hmain]
  intro hcontra
  nlinarith

end DirectionTheorems

end AntSim
